import Mathlib

/-!
Verification of example/simple/sftp_nonblock.c.

A shallow embedding of the `main` function of the non-blocking SFTP sample.
The program is a straight line of calls into the C library, the socket layer
and libssh2, followed by a read loop.  Every external call is answered by an
oracle (`Env`); `main` produces the ordered trace of the calls it makes and of
the text it prints, together with its return value.

Conventions:
* pointers are natural numbers and `NULL` is `0`;
* C `int` values are integers;
* the build is the POSIX one (`WIN32` undefined, `F_SETFL` defined);
* constants that come from headers outside this file are fields of `Headers`.
-/

namespace SftpNonblock

/-- Constants used by `main` whose definitions live in system and libssh2 headers. -/
structure Headers where
  AF_INET : Int
  SOCK_STREAM : Int
  F_GETFL : Int
  F_SETFL : Int
  O_NONBLOCK : Int
  LIBSSH2_HOSTKEY_HASH_MD5 : Int
  LIBSSH2_FXF_READ : Int
  LIBSSH2SFTP_EAGAIN : Int

/-- One completed call `libssh2_sftp_readnb(sftp_handle, mem, sizeof(mem))`:
its return value and the contents of the buffer `mem` when it returns. -/
structure ReadResult where
  rc : Int
  mem : List Nat
  deriving DecidableEq

/-- Answers of the outside world to the calls `main` makes.  Every call other
than `libssh2_sftp_readnb` happens at most once in a run, so one value each is
enough; `reads` lists the results of the successive `libssh2_sftp_readnb`
calls that have returned. -/
structure Env where
  inet_addr : String → Int
  htonl : Int → Int
  htons : Int → Int
  socket : Int
  connect : Int
  fcntl_getfl : Int
  session_init : Nat
  session_startup : Int
  hostkey_hash : Nat → Nat
  userauth_password : Int
  sftp_init : Nat
  sftp_open : Nat
  reads : List ReadResult

/-- Observable steps of a run, in the order the program performs them.  A call
event records the arguments passed and, where the program tests it, the value
returned.  The size argument of `connect` and the write-only `sin` fields are
left out.  Text printed with `printf` and `fprintf(stderr, ...)` and the bytes
handed to `write` are three different kinds of event. -/
inductive Event where
  | socket (domain type protocol : Int) (ret : Int)
  | connect (sock : Int) (family port addr : Int) (ret : Int)
  | fcntl (sock : Int) (cmd arg : Int)
  | session_init (ret : Nat)
  | session_startup (session : Nat) (sock : Int) (ret : Int)
  | hostkey_hash (session : Nat) (hash_type : Int)
  | userauth_password (session : Nat) (username password : String) (ret : Int)
  | sftp_init (session : Nat) (ret : Nat)
  | sftp_set_blocking (sftp : Nat) (blocking : Int)
  | sftp_open (sftp : Nat) (path : String) (flags mode : Int) (ret : Nat)
  | sftp_readnb (handle : Nat) (maxlen : Nat) (ret : Int)
  | sftp_close (handle : Nat)
  | sftp_shutdown (sftp : Nat)
  | session_disconnect (session : Nat) (description : String)
  | session_free (session : Nat)
  | sleep (seconds : Nat)
  | close (fd : Int)
  | write (fd : Int) (bytes : List Nat)
  | printf (text : String)
  | fprintf_stderr (text : String)
  deriving DecidableEq

/-- Outcome of a run: the trace so far and the value `main` returned, or `none`
while the program is still inside the read loop waiting for the next
`libssh2_sftp_readnb` result. -/
structure Run where
  trace : List Event
  ret : Option Int
  deriving DecidableEq

/-- Upper-case hexadecimal digit of a value below sixteen. -/
def hexDigit (n : Nat) : Char :=
  if n < 10 then Char.ofNat (48 + n) else Char.ofNat (55 + n)

/-- Text produced by `printf("%02X ", b)` for an `unsigned char` value `b`. -/
def fmt02X (b : Nat) : String :=
  String.mk [hexDigit (b / 16), hexDigit (b % 16), ' ']

/-- Lines 121-125: the fingerprint line, sixteen bytes in hexadecimal. -/
def printFingerprint (fingerprint : Nat → Nat) : List Event :=
  [Event.printf "Fingerprint: "]
    ++ (List.range 16).map (fun i => Event.printf (fmt02X (fingerprint i % 256)))
    ++ [Event.printf "\n"]

/-- Lines 183-196: the code at label `shutdown`, which ends with `return 0`. -/
def shutdown (session : Nat) (sock : Int) : Run :=
  { trace :=
      [ Event.session_disconnect session "Normal Shutdown, Thank you for playing",
        Event.session_free session,
        Event.sleep 1,
        Event.close sock,
        Event.printf "all done\n" ],
    ret := some 0 }

/-- Lines 170-178, from the `while` of the retry to the end of the `do` body.
Each element of the list is the next result of `libssh2_sftp_readnb`.  A result
equal to `LIBSSH2SFTP_EAGAIN` repeats the call; a positive result is written to
descriptor 2 and the `do` body starts again (line 169 prints the progress line
and the call is repeated); any other result leaves the loop.  The flag says
whether the loop was left. -/
def readLoop (eagain : Int) (handle : Nat) : List ReadResult → List Event × Bool
  | [] => ([], false)
  | r :: rs =>
    if r.rc = eagain then
      let k := readLoop eagain handle rs
      (Event.sftp_readnb handle 1024 r.rc :: k.1, k.2)
    else if r.rc > 0 then
      let k := readLoop eagain handle rs
      (Event.sftp_readnb handle 1024 r.rc
        :: Event.write 2 (r.mem.take r.rc.toNat)
        :: Event.fprintf_stderr "libssh2_sftp_readnb()!\n"
        :: k.1, k.2)
    else
      ([Event.sftp_readnb handle 1024 r.rc], true)

/-- Prefix a run with the events that happened before it. -/
def Run.after (pre : List Event) (r : Run) : Run :=
  { trace := pre ++ r.trace, ret := r.ret }

/-- Lines 164-181 and the fall-through into `shutdown`: the read loop, then
close of the handle and shutdown of the SFTP session. -/
def receive (K : Headers) (env : Env) (session : Nat) (sock : Int) (sftp : Nat)
    (handle : Nat) : Run :=
  let loop := readLoop K.LIBSSH2SFTP_EAGAIN handle env.reads
  let body :=
    [ Event.fprintf_stderr "libssh2_sftp_open() is done, now receive data!\n",
      Event.fprintf_stderr "libssh2_sftp_readnb()!\n" ] ++ loop.1
  if loop.2 then
    (shutdown session sock).after
      (body ++ [Event.sftp_close handle, Event.sftp_shutdown sftp])
  else
    { trace := body, ret := none }

/-- Lines 144-163: SFTP initialisation and opening of the remote file. -/
def sftpPart (K : Headers) (env : Env) (session : Nat) (sock : Int)
    (sftppath : String) : Run :=
  let sftp_session := env.sftp_init
  let t0 :=
    [ Event.fprintf_stderr "libssh2_sftp_init()!\n",
      Event.sftp_init session sftp_session ]
  if sftp_session = 0 then
    (shutdown session sock).after
      (t0 ++ [Event.fprintf_stderr "Unable to init SFTP session\n"])
  else
    let sftp_handle := env.sftp_open
    let t1 := t0 ++
      [ Event.sftp_set_blocking sftp_session 0,
        Event.fprintf_stderr "libssh2_sftp_open()!\n",
        Event.sftp_open sftp_session sftppath K.LIBSSH2_FXF_READ 0 sftp_handle ]
    if sftp_handle = 0 then
      (shutdown session sock).after
        (t1 ++ [Event.fprintf_stderr "Unable to open file with SFTP\n"])
    else
      (receive K env session sock sftp_session sftp_handle).after t1

/-- Lines 115-142: fingerprint output and authentication.  `auth_pw` is the
constant 1, so the password branch is the one taken. -/
def authPart (K : Headers) (env : Env) (session : Nat) (sock : Int)
    (username password sftppath : String) : Run :=
  let t0 :=
    [Event.hostkey_hash session K.LIBSSH2_HOSTKEY_HASH_MD5]
      ++ printFingerprint env.hostkey_hash
      ++ [Event.userauth_password session username password env.userauth_password]
  if env.userauth_password ≠ 0 then
    (shutdown session sock).after
      (t0 ++ [Event.printf "Authentication by password failed.\n"])
  else
    (sftpPart K env session sock sftppath).after t0

/-- The function `main` of sftp_nonblock.c. -/
def main (K : Headers) (env : Env) (argc : Int) (argv : Nat → String) : Run :=
  let hostaddr := if argc > 1 then env.inet_addr (argv 1) else env.htonl 0x7F000001
  let username := if argc > 2 then argv 2 else "username"
  let password := if argc > 3 then argv 3 else "password"
  let sftppath := if argc > 4 then argv 4 else "/tmp/TEST"
  let sock := env.socket
  let t0 :=
    [ Event.socket K.AF_INET K.SOCK_STREAM 0 sock,
      Event.connect sock K.AF_INET (env.htons 22) hostaddr env.connect ]
  if env.connect ≠ 0 then
    { trace := t0 ++ [Event.fprintf_stderr "failed to connect!\n"], ret := some (-1) }
  else
    let rc := env.fcntl_getfl
    let session := env.session_init
    let t1 := t0 ++
      [ Event.fcntl sock K.F_GETFL 0,
        Event.fcntl sock K.F_SETFL (Int.lor rc K.O_NONBLOCK),
        Event.session_init session ]
    if session = 0 then
      { trace := t1, ret := some (-1) }
    else
      let rc := env.session_startup
      let t2 := t1 ++ [Event.session_startup session sock rc]
      if rc ≠ 0 then
        { trace := t2 ++ [Event.fprintf_stderr
                    ("Failure establishing SSH session: " ++ toString rc ++ "\n")],
          ret := some (-1) }
      else
        (authPart K env session sock username password sftppath).after t2

/-! Observations on traces -/

/-- A call of `libssh2_sftp_readnb` that returned the would-block code. -/
def Event.isEagainCall (eagain : Int) : Event → Bool
  | .sftp_readnb _ _ rc => rc == eagain
  | _ => false

/-- A call of `libssh2_sftp_readnb`. -/
def Event.isReadnb : Event → Bool
  | .sftp_readnb _ _ _ => true
  | _ => false

/-- A call that takes the file handle returned by `libssh2_sftp_open`. -/
def Event.isHandleCall : Event → Bool
  | .sftp_readnb _ _ _ => true
  | .sftp_close _ => true
  | _ => false

/-- A call into the SFTP part of the library. -/
def Event.isSftpCall : Event → Bool
  | .sftp_init _ _ => true
  | .sftp_set_blocking _ _ => true
  | .sftp_open _ _ _ _ _ => true
  | .sftp_readnb _ _ _ => true
  | .sftp_close _ => true
  | .sftp_shutdown _ => true
  | _ => false

/-- A call of `libssh2_sftp_shutdown`. -/
def Event.isSftpShutdown : Event → Bool
  | .sftp_shutdown _ => true
  | _ => false

/-- One of the three teardown calls: session disconnect, session free, socket close. -/
def Event.isTeardown : Event → Bool
  | .session_disconnect _ _ => true
  | .session_free _ => true
  | .close _ => true
  | _ => false

/-- Text printed through stdio, on either stream. -/
def Event.isMessage : Event → Bool
  | .printf _ => true
  | .fprintf_stderr _ => true
  | _ => false

/-- Anything the program emits: stdio text or a raw descriptor write. -/
def Event.isOutput : Event → Bool
  | .printf _ => true
  | .fprintf_stderr _ => true
  | .write _ _ => true
  | _ => false

/-- A call whose recorded return value reports failure: the seven failures a
run can meet. -/
def Event.failed (eagain : Int) : Event → Bool
  | .connect _ _ _ _ ret => ret != 0
  | .session_init ret => ret == 0
  | .session_startup _ _ ret => ret != 0
  | .userauth_password _ _ _ ret => ret != 0
  | .sftp_init _ ret => ret == 0
  | .sftp_open _ _ _ _ ret => ret == 0
  | .sftp_readnb _ _ ret => decide (ret < 0) && ret != eagain
  | _ => false

/-- The three failures after which `main` executes `return -1`. -/
def Event.abortsRun : Event → Bool
  | .connect _ _ _ _ ret => ret != 0
  | .session_init ret => ret == 0
  | .session_startup _ _ ret => ret != 0
  | _ => false

/-- The message the source prints in the branch taken when the given call
fails; `none` for the calls whose failure branch prints nothing. -/
def diagnosticOf : Event → Option Event
  | .connect _ _ _ _ _ => some (Event.fprintf_stderr "failed to connect!\n")
  | .session_startup _ _ rc =>
    some (Event.fprintf_stderr ("Failure establishing SSH session: " ++ toString rc ++ "\n"))
  | .userauth_password _ _ _ _ => some (Event.printf "Authentication by password failed.\n")
  | .sftp_init _ _ => some (Event.fprintf_stderr "Unable to init SFTP session\n")
  | .sftp_open _ _ _ _ _ => some (Event.fprintf_stderr "Unable to open file with SFTP\n")
  | _ => none

/-- The stdio messages printed after the first failed call of a trace. -/
def messagesAfterFailure (eagain : Int) (t : List Event) : List Event :=
  ((t.dropWhile (fun ev => !ev.failed eagain)).drop 1).filter Event.isMessage

/-- Bytes passed to `write` on the given descriptor, in call order. -/
def written (fd : Int) : List Event → List Nat
  | [] => []
  | Event.write fd1 bytes :: t => if fd1 = fd then bytes ++ written fd t else written fd t
  | _ :: t => written fd t

/-- Return values of the `libssh2_sftp_readnb` calls, in call order. -/
def readnbResults : List Event → List Int
  | [] => []
  | Event.sftp_readnb _ _ rc :: t => rc :: readnbResults t
  | _ :: t => readnbResults t

/-- The result sequence with every would-block result removed. -/
def dropEagain (eagain : Int) (reads : List ReadResult) : List ReadResult :=
  reads.filter (fun r => r.rc != eagain)

/-- A result after which the read loop goes on: positive or would-block. -/
def continues (eagain : Int) (r : ReadResult) : Bool :=
  decide (0 < r.rc) || r.rc == eagain

/-- The first `rc` bytes of the buffer: what `write(2, mem, rc)` is handed. -/
def ReadResult.chunk (r : ReadResult) : List Nat :=
  r.mem.take r.rc.toNat

/-- Every external call before the read loop succeeds, so the loop is entered. -/
def Env.reachesReadLoop (env : Env) : Prop :=
  env.connect = 0 ∧ env.session_init ≠ 0 ∧ env.session_startup = 0
    ∧ env.userauth_password = 0 ∧ env.sftp_init ≠ 0 ∧ env.sftp_open ≠ 0

instance (env : Env) : Decidable env.reachesReadLoop := by
  unfold Env.reachesReadLoop; infer_instance

/-! Segments of the trace, in program order -/

/-- Lines 79-85: socket creation and the call of connect. -/
def connectSeg (K : Headers) (env : Env) (argc : Int) (argv : Nat → String) : List Event :=
  [ Event.socket K.AF_INET K.SOCK_STREAM 0 env.socket,
    Event.connect env.socket K.AF_INET (env.htons 22)
      (if argc > 1 then env.inet_addr (argv 1) else env.htonl 0x7F000001) env.connect ]

/-- Lines 94-102: non-blocking mode and creation of the session. -/
def initSeg (K : Headers) (env : Env) : List Event :=
  [ Event.fcntl env.socket K.F_GETFL 0,
    Event.fcntl env.socket K.F_SETFL (Int.lor env.fcntl_getfl K.O_NONBLOCK),
    Event.session_init env.session_init ]

/-- Line 109: the handshake. -/
def startupSeg (env : Env) : List Event :=
  [ Event.session_startup env.session_init env.socket env.session_startup ]

/-- Lines 120-129: fingerprint and password authentication. -/
def authSeg (K : Headers) (env : Env) (argc : Int) (argv : Nat → String) : List Event :=
  [Event.hostkey_hash env.session_init K.LIBSSH2_HOSTKEY_HASH_MD5]
    ++ printFingerprint env.hostkey_hash
    ++ [Event.userauth_password env.session_init
          (if argc > 2 then argv 2 else "username")
          (if argc > 3 then argv 3 else "password") env.userauth_password]

/-- Lines 144-145: start of the SFTP subsystem. -/
def sftpInitSeg (env : Env) : List Event :=
  [ Event.fprintf_stderr "libssh2_sftp_init()!\n",
    Event.sftp_init env.session_init env.sftp_init ]

/-- Lines 153-158: non-blocking SFTP and the open request. -/
def openSeg (K : Headers) (env : Env) (argc : Int) (argv : Nat → String) : List Event :=
  [ Event.sftp_set_blocking env.sftp_init 0,
    Event.fprintf_stderr "libssh2_sftp_open()!\n",
    Event.sftp_open env.sftp_init (if argc > 4 then argv 4 else "/tmp/TEST")
      K.LIBSSH2_FXF_READ 0 env.sftp_open ]

/-- Lines 164-178: the read loop. -/
def loopSeg (K : Headers) (env : Env) : List Event :=
  [ Event.fprintf_stderr "libssh2_sftp_open() is done, now receive data!\n",
    Event.fprintf_stderr "libssh2_sftp_readnb()!\n" ]
    ++ (readLoop K.LIBSSH2SFTP_EAGAIN env.sftp_open env.reads).1

/-- Lines 180-181: release of the handle and of the SFTP session. -/
def closeSeg (env : Env) : List Event :=
  [ Event.sftp_close env.sftp_open, Event.sftp_shutdown env.sftp_init ]

/-- Lines 185-195: the events of label `shutdown`. -/
def shutdownSeg (env : Env) : List Event :=
  (shutdown env.session_init env.socket).trace

/-! Sample inputs -/

/-- Header constants as found on a Linux build of libssh2 0.15. -/
def sampleHeaders : Headers :=
  { AF_INET := 2, SOCK_STREAM := 1, F_GETFL := 3, F_SETFL := 4, O_NONBLOCK := 2048,
    LIBSSH2_HOSTKEY_HASH_MD5 := 1, LIBSSH2_FXF_READ := 1, LIBSSH2SFTP_EAGAIN := -2 }

/-- A run in which every call succeeds and the server delivers three bytes,
with would-block results in between, before end of file. -/
def sampleEnv : Env :=
  { inet_addr := fun _ => 16777343, htonl := fun _ => 16777343, htons := fun _ => 5632,
    socket := 3, connect := 0, fcntl_getfl := 2, session_init := 100,
    session_startup := 0, hostkey_hash := fun i => 17 * i, userauth_password := 0,
    sftp_init := 200, sftp_open := 300,
    reads :=
      [ ⟨-2, List.replicate 1024 0⟩,
        ⟨3, [97, 98, 99] ++ List.replicate 1021 0⟩,
        ⟨-2, [97, 98, 99] ++ List.replicate 1021 0⟩,
        ⟨0, [97, 98, 99] ++ List.replicate 1021 0⟩ ] }

/-- An argument vector of the given strings. -/
def argvOf (args : List String) : Nat → String :=
  fun i => args.getD i ""

/-- The sample run, except that `libssh2_session_init` returns `NULL`. -/
def initNullEnv : Env := { sampleEnv with session_init := 0 }

/-- The sample run, except that the first `libssh2_sftp_readnb` reports an error. -/
def readErrorEnv : Env := { sampleEnv with reads := [⟨-1, List.replicate 1024 0⟩] }

/-- The sample run, except that the first `libssh2_sftp_readnb` reports end of file. -/
def readEofEnv : Env := { sampleEnv with reads := [⟨0, List.replicate 1024 0⟩] }

/-- The sample run, except that the server rejects the password. -/
def authFailEnv : Env := { sampleEnv with userauth_password := -18 }

/-- The sample run, except that the remote file cannot be opened. -/
def openFailEnv : Env := { sampleEnv with sftp_open := 0 }

/-- The sample argument vector: host, user name, and nothing else. -/
def sampleArgv : Nat → String := argvOf ["sftp", "10.0.0.1", "bob"]

/-- Bytes of a printed text.  Every text the program prints is ASCII, so the
code point of each character is its byte. -/
def textBytes (s : String) : List Nat :=
  s.toList.map Char.toNat

/-- Everything that reaches descriptor 2, in order: the text printed with
`fprintf(stderr, ...)` (the unbuffered stream `stderr` is descriptor 2) and the
bytes handed to `write` on descriptor 2. -/
def descriptor2 : List Event → List Nat
  | [] => []
  | Event.fprintf_stderr s :: t => textBytes s ++ descriptor2 t
  | Event.write fd bytes :: t => if fd = 2 then bytes ++ descriptor2 t else descriptor2 t
  | _ :: t => descriptor2 t

/-- The sample run, except that the server delivers two chunks of two bytes,
with a would-block result in between. -/
def twoChunkEnv : Env :=
  { sampleEnv with
    reads :=
      [ ⟨2, [65, 66] ++ List.replicate 1022 0⟩,
        ⟨-2, [65, 66] ++ List.replicate 1022 0⟩,
        ⟨2, [67, 68] ++ List.replicate 1022 0⟩,
        ⟨0, [67, 68] ++ List.replicate 1022 0⟩ ] }

/-- The sample run, except that every read so far reported would-block. -/
def hangEnv : Env :=
  { sampleEnv with
    reads :=
      [ ⟨-2, List.replicate 1024 0⟩, ⟨-2, List.replicate 1024 0⟩,
        ⟨-2, List.replicate 1024 0⟩ ] }

/-! The SFTP frame codec of the specification

The library code that frames SFTP packets is not part of this file; the
definitions below follow sections 4.2, 4.5 and 6 of the specification. -/

/-- Modelled from the spec: the result variants of the codec operation
`decode` of section 4.2, which the source file does not contain:
`CompleteFrame(response, bytesConsumed)`, `Incomplete` and `Malformed`. -/
inductive Decoded (R : Type) where
  | complete (response : R) (bytesConsumed : Nat)
  | incomplete
  | malformed

/-- Modelled from the spec: the value of a fixed-width big-endian field of four
bytes (section 4.2, numeric fields), which the source file does not contain. -/
def be32 (b0 b1 b2 b3 : Nat) : Nat :=
  ((b0 * 256 + b1) * 256 + b2) * 256 + b3

/-- Modelled from the spec: the codec operation `decode` of sections 4.2 and 6,
which the source file does not contain.  A packet is a four-byte big-endian
length followed by that many bytes (one type byte, then the payload).  Fewer
bytes than a whole packet give `incomplete`; a whole packet is handed to the
typed decoder `parse`, whose refusal gives `malformed`. -/
def decode {R : Type} (parse : List Nat → Option R) : List Nat → Decoded R
  | b0 :: b1 :: b2 :: b3 :: rest =>
    if rest.length < be32 b0 b1 b2 b3 then Decoded.incomplete
    else
      match parse (rest.take (be32 b0 b1 b2 b3)) with
      | some r => Decoded.complete r (4 + be32 b0 b1 b2 b3)
      | none => Decoded.malformed
  | _ => Decoded.incomplete

/-- Modelled from the spec: the internal state of the codec of section 4.2,
which the source file does not contain: the buffered prefix of an incomplete
frame, and whether a fatal codec error has occurred. -/
structure Codec where
  pending : List Nat
  failed : Bool

/-- Modelled from the spec: decoding as many complete frames as are available
(section 4.5, `pump`), which the source file does not contain.  The bytes left
over stay buffered; malformed input is fatal. -/
def drain {R : Type} (parse : List Nat → Option R) (buf : List Nat) : List R × Codec :=
  match h : decode parse buf with
  | Decoded.complete r n =>
    let k := drain parse (buf.drop n)
    (r :: k.1, k.2)
  | Decoded.incomplete => ([], { pending := buf, failed := false })
  | Decoded.malformed => ([], { pending := buf, failed := true })
termination_by buf.length
decreasing_by
  simp_wf
  rcases buf with _ | ⟨b0, _ | ⟨b1, _ | ⟨b2, _ | ⟨b3, rest⟩⟩⟩⟩
  · simp [decode] at h
  · simp [decode] at h
  · simp [decode] at h
  · simp [decode] at h
  · simp only [decode] at h
    split at h
    · cases h
    · split at h
      · cases h
        simp only [List.length_cons]
        omega
      · cases h

/-- Modelled from the spec: the inbound half of `pump` of section 4.5, which the
source file does not contain: the bytes one non-blocking read delivered are
appended to the buffered prefix and every complete frame is decoded.  After a
fatal codec error nothing is decoded any more. -/
def Codec.pump {R : Type} (parse : List Nat → Option R) (c : Codec)
    (delivered : List Nat) : List R × Codec :=
  if c.failed then ([], c) else drain parse (c.pending ++ delivered)

/-- Modelled from the spec: a sequence of `pump` calls, one per delivery of
bytes (a delivery may be empty), and the frames they yield in order; the
source file does not contain it. -/
def Codec.pumpAll {R : Type} (parse : List Nat → Option R) (c : Codec) :
    List (List Nat) → List R
  | [] => []
  | d :: ds => (c.pump parse d).1 ++ Codec.pumpAll parse (c.pump parse d).2 ds

/-- A typed decoder for sample runs: the response is the packet body itself,
and a packet without a type byte is refused. -/
def sampleParse : List Nat → Option (List Nat) :=
  fun body => if body = [] then none else some body

/-! Shape of a run -/

theorem shutdown_ret (session : Nat) (sock : Int) : (shutdown session sock).ret = some 0 := rfl

/-- Every run of `main` is one of eight shapes, told apart by the answers of
the outside world. -/
theorem main_cases (K : Headers) (env : Env) (argc : Int) (argv : Nat → String) :
    (env.connect ≠ 0 ∧ main K env argc argv =
        ⟨connectSeg K env argc argv ++ [Event.fprintf_stderr "failed to connect!\n"], some (-1)⟩)
    ∨ (env.connect = 0 ∧ env.session_init = 0 ∧ main K env argc argv =
        ⟨connectSeg K env argc argv ++ initSeg K env, some (-1)⟩)
    ∨ (env.connect = 0 ∧ env.session_init ≠ 0 ∧ env.session_startup ≠ 0 ∧ main K env argc argv =
        ⟨connectSeg K env argc argv ++ initSeg K env ++ startupSeg env ++
          [Event.fprintf_stderr
            ("Failure establishing SSH session: " ++ toString env.session_startup ++ "\n")],
         some (-1)⟩)
    ∨ (env.connect = 0 ∧ env.session_init ≠ 0 ∧ env.session_startup = 0
        ∧ env.userauth_password ≠ 0 ∧ main K env argc argv =
        ⟨connectSeg K env argc argv ++ initSeg K env ++ startupSeg env ++ authSeg K env argc argv
          ++ [Event.printf "Authentication by password failed.\n"] ++ shutdownSeg env, some 0⟩)
    ∨ (env.connect = 0 ∧ env.session_init ≠ 0 ∧ env.session_startup = 0
        ∧ env.userauth_password = 0 ∧ env.sftp_init = 0 ∧ main K env argc argv =
        ⟨connectSeg K env argc argv ++ initSeg K env ++ startupSeg env ++ authSeg K env argc argv
          ++ sftpInitSeg env ++ [Event.fprintf_stderr "Unable to init SFTP session\n"]
          ++ shutdownSeg env, some 0⟩)
    ∨ (env.connect = 0 ∧ env.session_init ≠ 0 ∧ env.session_startup = 0
        ∧ env.userauth_password = 0 ∧ env.sftp_init ≠ 0 ∧ env.sftp_open = 0
        ∧ main K env argc argv =
        ⟨connectSeg K env argc argv ++ initSeg K env ++ startupSeg env ++ authSeg K env argc argv
          ++ sftpInitSeg env ++ openSeg K env argc argv
          ++ [Event.fprintf_stderr "Unable to open file with SFTP\n"]
          ++ shutdownSeg env, some 0⟩)
    ∨ (env.reachesReadLoop
        ∧ (readLoop K.LIBSSH2SFTP_EAGAIN env.sftp_open env.reads).2 = true
        ∧ main K env argc argv =
        ⟨connectSeg K env argc argv ++ initSeg K env ++ startupSeg env ++ authSeg K env argc argv
          ++ sftpInitSeg env ++ openSeg K env argc argv ++ loopSeg K env ++ closeSeg env
          ++ shutdownSeg env, some 0⟩)
    ∨ (env.reachesReadLoop
        ∧ (readLoop K.LIBSSH2SFTP_EAGAIN env.sftp_open env.reads).2 = false
        ∧ main K env argc argv =
        ⟨connectSeg K env argc argv ++ initSeg K env ++ startupSeg env ++ authSeg K env argc argv
          ++ sftpInitSeg env ++ openSeg K env argc argv ++ loopSeg K env, none⟩) := by
  by_cases h1 : env.connect = 0
  · by_cases h2 : env.session_init = 0
    · simp [main, h1, h2, connectSeg, initSeg]
    · by_cases h3 : env.session_startup = 0
      · by_cases h4 : env.userauth_password = 0
        · by_cases h5 : env.sftp_init = 0
          · simp [main, authPart, sftpPart, Run.after, h1, h2, h3, h4, h5, connectSeg, initSeg,
              startupSeg, authSeg, sftpInitSeg, shutdownSeg, shutdown_ret]
          · by_cases h6 : env.sftp_open = 0
            · simp [main, authPart, sftpPart, Run.after, h1, h2, h3, h4, h5, h6, connectSeg,
                initSeg, startupSeg, authSeg, sftpInitSeg, openSeg, shutdownSeg, shutdown_ret,
                Env.reachesReadLoop]
            · by_cases h7 : (readLoop K.LIBSSH2SFTP_EAGAIN env.sftp_open env.reads).2 = true
              · simp [main, authPart, sftpPart, receive, Run.after, h1, h2, h3, h4, h5, h6, h7,
                  connectSeg, initSeg, startupSeg, authSeg, sftpInitSeg, openSeg, loopSeg,
                  closeSeg, shutdownSeg, shutdown_ret, Env.reachesReadLoop]
              · simp [main, authPart, sftpPart, receive, Run.after, h1, h2, h3, h4, h5, h6, h7,
                  connectSeg, initSeg, startupSeg, authSeg, sftpInitSeg, openSeg, loopSeg,
                  Env.reachesReadLoop]
        · simp [main, authPart, Run.after, h1, h2, h3, h4, connectSeg, initSeg, startupSeg,
            authSeg, shutdownSeg, shutdown_ret]
      · simp [main, h1, h2, h3, connectSeg, initSeg, startupSeg]
  · simp [main, h1, connectSeg]

/-- The run of `main` when every call before the read loop succeeds. -/
theorem main_of_reachesReadLoop (K : Headers) (env : Env) (argc : Int) (argv : Nat → String)
    (h : env.reachesReadLoop) :
    main K env argc argv =
      if (readLoop K.LIBSSH2SFTP_EAGAIN env.sftp_open env.reads).2 = true then
        ⟨connectSeg K env argc argv ++ initSeg K env ++ startupSeg env ++ authSeg K env argc argv
          ++ sftpInitSeg env ++ openSeg K env argc argv ++ loopSeg K env ++ closeSeg env
          ++ shutdownSeg env, some 0⟩
      else
        ⟨connectSeg K env argc argv ++ initSeg K env ++ startupSeg env ++ authSeg K env argc argv
          ++ sftpInitSeg env ++ openSeg K env argc argv ++ loopSeg K env, none⟩ := by
  obtain ⟨h1, h2, h3, h4, h5, h6⟩ := h
  rcases main_cases K env argc argv with ⟨c, _⟩ | ⟨_, c, _⟩ | ⟨_, _, c, _⟩ | ⟨_, _, _, c, _⟩
    | ⟨_, _, _, _, c, _⟩ | ⟨_, _, _, _, _, c, _⟩ | ⟨_, hl, hm⟩ | ⟨_, hl, hm⟩
  · exact absurd h1 c
  · exact absurd c h2
  · exact absurd h3 c
  · exact absurd h4 c
  · exact absurd c h5
  · exact absurd c h6
  · rw [hm, if_pos hl]
  · rw [hm, if_neg (by simp [hl])]

/-! The pieces of a trace -/

theorem mem_printFingerprint {f : Nat → Nat} {ev : Event} (h : ev ∈ printFingerprint f) :
    ∃ s, ev = Event.printf s := by
  simp only [printFingerprint, List.mem_append, List.mem_map, List.mem_singleton] at h
  rcases h with (h | ⟨i, _, h⟩) | h
  · exact ⟨_, h⟩
  · exact ⟨_, h.symm⟩
  · exact ⟨_, h⟩

theorem filter_printFingerprint_nil (p : Event → Bool) (hp : ∀ s, p (Event.printf s) = false)
    (f : Nat → Nat) : (printFingerprint f).filter p = [] := by
  rw [List.filter_eq_nil_iff]
  intro ev hev
  obtain ⟨s, rfl⟩ := mem_printFingerprint hev
  simp [hp]

theorem filter_printFingerprint_self (p : Event → Bool) (hp : ∀ s, p (Event.printf s) = true)
    (f : Nat → Nat) : (printFingerprint f).filter p = printFingerprint f := by
  rw [List.filter_eq_self]
  intro ev hev
  obtain ⟨s, rfl⟩ := mem_printFingerprint hev
  exact hp s

theorem mem_readLoop {e : Int} {h : Nat} {rs : List ReadResult} {ev : Event}
    (hev : ev ∈ (readLoop e h rs).1) :
    (∃ rc, ev = Event.sftp_readnb h 1024 rc) ∨ (∃ bs, ev = Event.write 2 bs)
      ∨ ev = Event.fprintf_stderr "libssh2_sftp_readnb()!\n" := by
  induction rs with
  | nil => simp [readLoop] at hev
  | cons r rs ih =>
    by_cases h1 : r.rc = e
    · simp only [readLoop, h1, if_true, List.mem_cons] at hev
      rcases hev with hev | hev
      · exact Or.inl ⟨_, hev⟩
      · exact ih hev
    · by_cases h2 : r.rc > 0
      · simp only [readLoop, h1, h2, if_true, if_false, List.mem_cons] at hev
        rcases hev with hev | hev | hev | hev
        · exact Or.inl ⟨_, hev⟩
        · exact Or.inr (Or.inl ⟨_, hev⟩)
        · exact Or.inr (Or.inr hev)
        · exact ih hev
      · simp only [readLoop, h1, h2, if_false, List.mem_singleton] at hev
        exact Or.inl ⟨_, hev⟩

theorem filter_readLoop_nil (p : Event → Bool) (e : Int) (h : Nat) (rs : List ReadResult)
    (h1 : ∀ rc, p (Event.sftp_readnb h 1024 rc) = false)
    (h2 : ∀ bs, p (Event.write 2 bs) = false)
    (h3 : p (Event.fprintf_stderr "libssh2_sftp_readnb()!\n") = false) :
    (readLoop e h rs).1.filter p = [] := by
  rw [List.filter_eq_nil_iff]
  intro ev hev
  rcases mem_readLoop hev with ⟨rc, rfl⟩ | ⟨bs, rfl⟩ | rfl
  · simp [h1]
  · simp [h2]
  · simp [h3]

/-- The loop is left exactly when some result is neither positive nor would-block. -/
theorem readLoop_left (e : Int) (h : Nat) (rs : List ReadResult) :
    (readLoop e h rs).2 = ((rs.dropWhile (continues e)).head?).isSome := by
  induction rs with
  | nil => simp [readLoop]
  | cons r rs ih =>
    by_cases h1 : r.rc = e
    · simp [readLoop, h1, continues, ih]
    · by_cases h2 : r.rc > 0
      · simp [readLoop, h1, h2, continues, ih]
      · simp [readLoop, h1, h2, continues, List.dropWhile_cons]

/-! Would-block results -/

theorem readLoop_dropEagain (e : Int) (h : Nat) (rs : List ReadResult) :
    ((readLoop e h rs).1.filter (fun ev => !ev.isEagainCall e)
        = (readLoop e h (dropEagain e rs)).1)
    ∧ (readLoop e h rs).2 = (readLoop e h (dropEagain e rs)).2 := by
  induction rs with
  | nil => simp [readLoop, dropEagain]
  | cons r rs ih =>
    by_cases h1 : r.rc = e
    · simp [readLoop, dropEagain, h1, Event.isEagainCall] at ih ⊢
      exact ih
    · by_cases h2 : r.rc > 0
      · simp [readLoop, dropEagain, h1, h2, Event.isEagainCall] at ih ⊢
        exact ih
      · simp [readLoop, dropEagain, h1, h2, Event.isEagainCall]

theorem receive_dropEagain (K : Headers) (env : Env) (session : Nat) (sock : Int)
    (sftp handle : Nat) :
    (receive K env session sock sftp handle).trace.filter
        (fun ev => !ev.isEagainCall K.LIBSSH2SFTP_EAGAIN)
      = (receive K { env with reads := dropEagain K.LIBSSH2SFTP_EAGAIN env.reads }
          session sock sftp handle).trace
    ∧ (receive K env session sock sftp handle).ret
      = (receive K { env with reads := dropEagain K.LIBSSH2SFTP_EAGAIN env.reads }
          session sock sftp handle).ret := by
  have hl := readLoop_dropEagain K.LIBSSH2SFTP_EAGAIN handle env.reads
  simp only [receive, ← hl.2, ← hl.1]
  split_ifs <;> simp [Run.after, shutdown, Event.isEagainCall, List.filter_cons]

theorem sftpPart_dropEagain (K : Headers) (env : Env) (session : Nat) (sock : Int)
    (path : String) :
    (sftpPart K env session sock path).trace.filter
        (fun ev => !ev.isEagainCall K.LIBSSH2SFTP_EAGAIN)
      = (sftpPart K { env with reads := dropEagain K.LIBSSH2SFTP_EAGAIN env.reads }
          session sock path).trace
    ∧ (sftpPart K env session sock path).ret
      = (sftpPart K { env with reads := dropEagain K.LIBSSH2SFTP_EAGAIN env.reads }
          session sock path).ret := by
  have hl := receive_dropEagain K env session sock env.sftp_init env.sftp_open
  simp only [sftpPart, Run.after, ← hl.2, ← hl.1]
  split_ifs <;> simp [Run.after, shutdown, Event.isEagainCall, List.filter_cons]

theorem authPart_dropEagain (K : Headers) (env : Env) (session : Nat) (sock : Int)
    (u p path : String) :
    (authPart K env session sock u p path).trace.filter
        (fun ev => !ev.isEagainCall K.LIBSSH2SFTP_EAGAIN)
      = (authPart K { env with reads := dropEagain K.LIBSSH2SFTP_EAGAIN env.reads }
          session sock u p path).trace
    ∧ (authPart K env session sock u p path).ret
      = (authPart K { env with reads := dropEagain K.LIBSSH2SFTP_EAGAIN env.reads }
          session sock u p path).ret := by
  have hl := sftpPart_dropEagain K env session sock path
  have hf := filter_printFingerprint_self (fun ev => !ev.isEagainCall K.LIBSSH2SFTP_EAGAIN)
    (by simp [Event.isEagainCall]) env.hostkey_hash
  simp only [authPart, Run.after, ← hl.2, ← hl.1]
  split_ifs <;> simp [Run.after, shutdown, hf, List.filter_cons] <;> simp [Event.isEagainCall]

theorem main_dropEagain (K : Headers) (env : Env) (argc : Int) (argv : Nat → String) :
    (main K env argc argv).trace.filter (fun ev => !ev.isEagainCall K.LIBSSH2SFTP_EAGAIN)
      = (main K { env with reads := dropEagain K.LIBSSH2SFTP_EAGAIN env.reads } argc argv).trace
    ∧ (main K env argc argv).ret
      = (main K { env with reads := dropEagain K.LIBSSH2SFTP_EAGAIN env.reads } argc argv).ret := by
  have hl := fun u p path => authPart_dropEagain K env env.session_init env.socket u p path
  simp only [main, Run.after, ← (hl _ _ _).2, ← (hl _ _ _).1]
  split_ifs <;> simp [List.filter_cons, Event.isEagainCall]

theorem written_filter (fd : Int) (p : Event → Bool)
    (hp : ∀ fd1 bs, p (Event.write fd1 bs) = true) (t : List Event) :
    written fd (t.filter p) = written fd t := by
  induction t with
  | nil => rfl
  | cons ev t ih =>
    rw [List.filter_cons]
    by_cases h : p ev = true
    · rw [if_pos h]
      cases ev <;> simp [written, ih]
    · rw [if_neg h]
      cases ev <;> simp [written, ih]
      exact absurd (hp _ _) h

theorem written_filter_eagain (fd : Int) (e : Int) (t : List Event) :
    written fd (t.filter (fun ev => !ev.isEagainCall e)) = written fd t :=
  written_filter fd _ (by simp [Event.isEagainCall]) t

theorem output_filter_eagain (e : Int) (t : List Event) :
    (t.filter (fun ev => !ev.isEagainCall e)).filter Event.isOutput
      = t.filter Event.isOutput := by
  rw [List.filter_filter]
  congr 1
  funext ev
  cases ev <;> simp [Event.isOutput, Event.isEagainCall]

/-- C1: a would-block result of `libssh2_sftp_readnb` is never surfaced.  For
every run, deleting the calls that returned `LIBSSH2SFTP_EAGAIN` from the trace
gives exactly the trace of the run on the result sequence without those
results; so the bytes written to descriptor 2, everything the program prints,
and the value `main` returns are the same for both sequences. -/
theorem eagain_never_surfaced (K : Headers) (env : Env) (argc : Int) (argv : Nat → String) :
    (main K env argc argv).trace.filter (fun ev => !ev.isEagainCall K.LIBSSH2SFTP_EAGAIN)
      = (main K { env with reads := dropEagain K.LIBSSH2SFTP_EAGAIN env.reads } argc argv).trace
    ∧ written 2 (main K env argc argv).trace
      = written 2
          (main K { env with reads := dropEagain K.LIBSSH2SFTP_EAGAIN env.reads } argc argv).trace
    ∧ (main K env argc argv).trace.filter Event.isOutput
      = (main K { env with reads := dropEagain K.LIBSSH2SFTP_EAGAIN env.reads }
          argc argv).trace.filter Event.isOutput
    ∧ (main K env argc argv).ret
      = (main K { env with reads := dropEagain K.LIBSSH2SFTP_EAGAIN env.reads } argc argv).ret := by
  have h := main_dropEagain K env argc argv
  refine ⟨h.1, ?_, ?_, h.2⟩
  · rw [← h.1, written_filter_eagain]
  · rw [← h.1, output_filter_eagain]

/-- Witness for C1: in the sample run the two would-block results leave no
trace in what reaches descriptor 2. -/
theorem eagain_never_surfaced_witness :
    written 2 (main sampleHeaders sampleEnv 1 (argvOf ["sftp"])).trace = [97, 98, 99]
      ∧ (main sampleHeaders sampleEnv 1 (argvOf ["sftp"])).ret = some 0 :=
  ⟨(eagain_never_surfaced sampleHeaders sampleEnv 1 (argvOf ["sftp"])).2.1.trans (by decide),
    (eagain_never_surfaced sampleHeaders sampleEnv 1 (argvOf ["sftp"])).2.2.2.trans
      (by decide)⟩

/-! Bytes written and calls made by the read loop -/

theorem written_append (fd : Int) (a b : List Event) :
    written fd (a ++ b) = written fd a ++ written fd b := by
  induction a with
  | nil => rfl
  | cons ev a ih =>
    cases ev <;> simp [written, ih]
    split <;> simp

theorem written_map_printf (fd : Int) {α : Type} (g : α → String) (l : List α) :
    written fd (l.map (fun i => Event.printf (g i))) = [] := by
  induction l with
  | nil => rfl
  | cons i l ih => simpa [written] using ih

theorem written_printFingerprint (fd : Int) (f : Nat → Nat) :
    written fd (printFingerprint f) = [] := by
  unfold printFingerprint
  rw [written_append, written_append, written_map_printf]
  rfl

theorem readnbResults_append (a b : List Event) :
    readnbResults (a ++ b) = readnbResults a ++ readnbResults b := by
  induction a with
  | nil => rfl
  | cons ev a ih => cases ev <;> simp [readnbResults, ih]

theorem readnbResults_map_printf {α : Type} (g : α → String) (l : List α) :
    readnbResults (l.map (fun i => Event.printf (g i))) = [] := by
  induction l with
  | nil => rfl
  | cons i l ih => simpa [readnbResults] using ih

theorem readnbResults_printFingerprint (f : Nat → Nat) :
    readnbResults (printFingerprint f) = [] := by
  unfold printFingerprint
  rw [readnbResults_append, readnbResults_append, readnbResults_map_printf]
  rfl

theorem written_readLoop (e : Int) (he : e < 0) (h : Nat) (rs : List ReadResult) :
    written 2 (readLoop e h rs).1
      = ((rs.takeWhile (continues e)).filter (fun r => decide (0 < r.rc))).flatMap
          ReadResult.chunk := by
  induction rs with
  | nil => simp [readLoop, written]
  | cons r rs ih =>
    by_cases h1 : r.rc = e
    · have h0 : ¬ (0 < r.rc) := by omega
      have h0e : ¬ (0 < e) := by omega
      simp [readLoop, h1, written, continues, ih, h0e]
    · by_cases h2 : r.rc > 0
      · simp [readLoop, h1, h2, written, continues, ih, ReadResult.chunk]
      · simp [readLoop, h1, h2, written, continues]

theorem readnbResults_readLoop (e : Int) (h : Nat) (rs : List ReadResult) :
    readnbResults (readLoop e h rs).1
      = (rs.takeWhile (continues e)).map ReadResult.rc
          ++ (((rs.dropWhile (continues e)).head?).map ReadResult.rc).toList := by
  induction rs with
  | nil => simp [readLoop, readnbResults]
  | cons r rs ih =>
    by_cases h1 : r.rc = e
    · simp [readLoop, h1, readnbResults, continues, ih]
    · by_cases h2 : r.rc > 0
      · simp [readLoop, h1, h2, readnbResults, continues, ih]
      · simp [readLoop, h1, h2, readnbResults, continues, List.dropWhile_cons,
          List.takeWhile_cons]

theorem written_main (K : Headers) (env : Env) (argc : Int) (argv : Nat → String)
    (hsetup : env.reachesReadLoop) :
    written 2 (main K env argc argv).trace
      = written 2 (readLoop K.LIBSSH2SFTP_EAGAIN env.sftp_open env.reads).1 := by
  rw [main_of_reachesReadLoop K env argc argv hsetup]
  split_ifs <;>
    simp [written_append, written_printFingerprint, connectSeg, initSeg, startupSeg, authSeg,
      sftpInitSeg, openSeg, loopSeg, closeSeg, shutdownSeg, shutdown, written]

theorem readnbResults_main (K : Headers) (env : Env) (argc : Int) (argv : Nat → String)
    (hsetup : env.reachesReadLoop) :
    readnbResults (main K env argc argv).trace
      = readnbResults (readLoop K.LIBSSH2SFTP_EAGAIN env.sftp_open env.reads).1 := by
  rw [main_of_reachesReadLoop K env argc argv hsetup]
  split_ifs <;>
    simp [readnbResults_append, readnbResults_printFingerprint, connectSeg, initSeg, startupSeg,
      authSeg, sftpInitSeg, openSeg, loopSeg, closeSeg, shutdownSeg, shutdown, readnbResults]

theorem descriptor2_append (a b : List Event) :
    descriptor2 (a ++ b) = descriptor2 a ++ descriptor2 b := by
  induction a with
  | nil => rfl
  | cons ev a ih =>
    cases ev <;> simp [descriptor2, ih]
    split <;> simp

theorem descriptor2_map_printf {α : Type} (g : α → String) (l : List α) :
    descriptor2 (l.map (fun i => Event.printf (g i))) = [] := by
  induction l with
  | nil => rfl
  | cons i l ih => simpa [descriptor2] using ih

theorem descriptor2_printFingerprint (f : Nat → Nat) :
    descriptor2 (printFingerprint f) = [] := by
  unfold printFingerprint
  rw [descriptor2_append, descriptor2_append, descriptor2_map_printf]
  rfl

theorem descriptor2_readLoop (e : Int) (he : e < 0) (h : Nat) (rs : List ReadResult) :
    descriptor2 (readLoop e h rs).1
      = ((rs.takeWhile (continues e)).filter (fun r => decide (0 < r.rc))).flatMap
          (fun r => r.chunk ++ textBytes "libssh2_sftp_readnb()!\n") := by
  induction rs with
  | nil => simp [readLoop, descriptor2]
  | cons r rs ih =>
    by_cases h1 : r.rc = e
    · have h0 : ¬ (0 < r.rc) := by omega
      have h0e : ¬ (0 < e) := by omega
      simp [readLoop, h1, descriptor2, continues, ih, h0e]
    · by_cases h2 : r.rc > 0
      · simp [readLoop, h1, h2, descriptor2, continues, ih, ReadResult.chunk]
      · simp [readLoop, h1, h2, descriptor2, continues]

theorem descriptor2_main (K : Headers) (env : Env) (argc : Int) (argv : Nat → String)
    (hsetup : env.reachesReadLoop) :
    descriptor2 (main K env argc argv).trace
      = textBytes "libssh2_sftp_init()!\n" ++ textBytes "libssh2_sftp_open()!\n"
          ++ textBytes "libssh2_sftp_open() is done, now receive data!\n"
          ++ textBytes "libssh2_sftp_readnb()!\n"
          ++ descriptor2 (readLoop K.LIBSSH2SFTP_EAGAIN env.sftp_open env.reads).1 := by
  rw [main_of_reachesReadLoop K env argc argv hsetup]
  split_ifs <;>
    simp [descriptor2_append, descriptor2_printFingerprint, connectSeg, initSeg, startupSeg,
      authSeg, sftpInitSeg, openSeg, loopSeg, closeSeg, shutdownSeg, shutdown, descriptor2]

/-- C2 (amended): read data is consumed strictly in arrival order.  When the
read loop is reached and every result leaves a 1024-byte buffer with at most
1024 bytes reported, the bytes `main` passes to `write` on descriptor 2 are
exactly the concatenation, in call order, of the chunks (the first `rc` bytes
of the buffer) of the positive results that precede the first result that is
neither positive nor `LIBSSH2SFTP_EAGAIN`, and each such chunk has exactly `rc`
bytes.  Descriptor 2 also receives the progress lines printed on `stderr`: its
whole stream is the three lines printed before the loop, the line
"libssh2_sftp_readnb()!", and then each chunk, in call order, followed by that
line again. -/
theorem reads_written_in_order (K : Headers) (env : Env) (argc : Int) (argv : Nat → String)
    (hE : K.LIBSSH2SFTP_EAGAIN < 0) (hsetup : env.reachesReadLoop)
    (hfill : ∀ r ∈ env.reads, r.mem.length = 1024 ∧ r.rc ≤ 1024) :
    written 2 (main K env argc argv).trace
      = ((env.reads.takeWhile (continues K.LIBSSH2SFTP_EAGAIN)).filter
          (fun r => decide (0 < r.rc))).flatMap ReadResult.chunk
    ∧ (∀ r ∈ (env.reads.takeWhile (continues K.LIBSSH2SFTP_EAGAIN)).filter
          (fun r => decide (0 < r.rc)), (r.chunk.length : Int) = r.rc)
    ∧ descriptor2 (main K env argc argv).trace
      = textBytes "libssh2_sftp_init()!\n" ++ textBytes "libssh2_sftp_open()!\n"
          ++ textBytes "libssh2_sftp_open() is done, now receive data!\n"
          ++ textBytes "libssh2_sftp_readnb()!\n"
          ++ ((env.reads.takeWhile (continues K.LIBSSH2SFTP_EAGAIN)).filter
                (fun r => decide (0 < r.rc))).flatMap
              (fun r => r.chunk ++ textBytes "libssh2_sftp_readnb()!\n") := by
  refine ⟨?_, ?_, ?_⟩
  · rw [written_main K env argc argv hsetup, written_readLoop _ hE]
  · intro r hr
    have hr1 := List.mem_filter.1 hr
    have hmem : r ∈ env.reads := (List.takeWhile_sublist _).subset hr1.1
    have hpos : 0 < r.rc := by simpa using hr1.2
    obtain ⟨hlen, hle⟩ := hfill r hmem
    simp only [ReadResult.chunk, List.length_take, hlen]
    omega
  · rw [descriptor2_main K env argc argv hsetup, descriptor2_readLoop _ hE]

set_option maxRecDepth 100000 in
/-- Witness for C2 (amended): two chunks separated by a would-block result
reach `write` in the order they arrived, and on descriptor 2 each is followed by
the progress line. -/
theorem reads_written_in_order_witness :
    sampleHeaders.LIBSSH2SFTP_EAGAIN < 0 ∧ twoChunkEnv.reachesReadLoop
      ∧ (∀ r ∈ twoChunkEnv.reads, r.mem.length = 1024 ∧ r.rc ≤ 1024)
      ∧ written 2 (main sampleHeaders twoChunkEnv 1 (argvOf ["sftp"])).trace
          = [65, 66, 67, 68]
      ∧ descriptor2 (main sampleHeaders twoChunkEnv 1 (argvOf ["sftp"])).trace
          = textBytes "libssh2_sftp_init()!\n" ++ textBytes "libssh2_sftp_open()!\n"
              ++ textBytes "libssh2_sftp_open() is done, now receive data!\n"
              ++ textBytes "libssh2_sftp_readnb()!\n"
              ++ [65, 66] ++ textBytes "libssh2_sftp_readnb()!\n"
              ++ [67, 68] ++ textBytes "libssh2_sftp_readnb()!\n" :=
  ⟨by decide, by decide, by decide,
    (reads_written_in_order sampleHeaders twoChunkEnv 1 (argvOf ["sftp"])
      (by decide) (by decide) (by decide)).1.trans (by decide),
    (reads_written_in_order sampleHeaders twoChunkEnv 1 (argvOf ["sftp"])
      (by decide) (by decide) (by decide)).2.2.trans (by decide)⟩

set_option maxRecDepth 100000 in
/-- C2 as stated fails: in the run with two chunks of two bytes, the chunks
concatenated are four bytes, and `write` is handed exactly those, but the
stream on descriptor 2 is longer and starts with the text of a progress line,
because `stderr` is descriptor 2. -/
theorem descriptor2_not_only_chunks :
    ((twoChunkEnv.reads.takeWhile (continues sampleHeaders.LIBSSH2SFTP_EAGAIN)).filter
        (fun r => decide (0 < r.rc))).flatMap ReadResult.chunk = [65, 66, 67, 68]
      ∧ written 2 (main sampleHeaders twoChunkEnv 1 (argvOf ["sftp"])).trace
          = [65, 66, 67, 68]
      ∧ descriptor2 (main sampleHeaders twoChunkEnv 1 (argvOf ["sftp"])).trace
          ≠ [65, 66, 67, 68]
      ∧ (descriptor2 (main sampleHeaders twoChunkEnv 1 (argvOf ["sftp"])).trace).length = 162
      ∧ (descriptor2 (main sampleHeaders twoChunkEnv 1 (argvOf ["sftp"])).trace).take 7
          = textBytes "libssh2" := by
  decide

/-! End of file -/

theorem split_at_zero {l s a b : List Int} (hl : (0 : Int) ∉ l) (hs : s.length ≤ 1)
    (h : l ++ s = a ++ 0 :: b) : b = [] := by
  induction l generalizing a with
  | nil =>
    have hlen := congrArg List.length h
    simp only [List.nil_append, List.length_append, List.length_cons] at hlen
    exact List.eq_nil_of_length_eq_zero (by omega)
  | cons x l ih =>
    cases a with
    | nil =>
      simp only [List.cons_append, List.nil_append, List.cons.injEq] at h
      exact absurd h.1 (by intro hx; exact hl (by simp [hx]))
    | cons y a =>
      simp only [List.cons_append, List.cons.injEq] at h
      exact ih (fun h0 => hl (List.mem_cons_of_mem _ h0)) h.2

theorem zero_not_mem_takeWhile (e : Int) (he : e < 0) (rs : List ReadResult) :
    (0 : Int) ∉ (rs.takeWhile (continues e)).map ReadResult.rc := by
  intro h
  obtain ⟨r, hr, hr0⟩ := List.mem_map.1 h
  have hc : continues e r = true := List.mem_takeWhile_imp hr
  simp only [continues, Bool.or_eq_true, decide_eq_true_eq, beq_iff_eq] at hc
  omega

theorem readnbResults_eq_nil {t : List Event} (h : readnbResults t = []) :
    ∀ ev ∈ t, ev.isReadnb = false := by
  induction t with
  | nil => simp
  | cons x t ih =>
    cases x <;> simp_all [readnbResults, Event.isReadnb]

/-- C3: after end of file no further read is issued.  When the read loop is
reached, the `libssh2_sftp_readnb` calls of the run return, in order, the
results up to and including the first one that is neither positive nor
`LIBSSH2SFTP_EAGAIN`; when there is such a result the number of calls is its
position in the sequence; and no `libssh2_sftp_readnb` call follows a call that
returned 0. -/
theorem no_read_after_eof (K : Headers) (env : Env) (argc : Int) (argv : Nat → String)
    (hE : K.LIBSSH2SFTP_EAGAIN < 0) (hsetup : env.reachesReadLoop) :
    readnbResults (main K env argc argv).trace
      = (env.reads.takeWhile (continues K.LIBSSH2SFTP_EAGAIN)).map ReadResult.rc
          ++ (((env.reads.dropWhile (continues K.LIBSSH2SFTP_EAGAIN)).head?).map
                ReadResult.rc).toList
    ∧ (∀ r, (env.reads.dropWhile (continues K.LIBSSH2SFTP_EAGAIN)).head? = some r →
        (readnbResults (main K env argc argv).trace).length
          = (env.reads.takeWhile (continues K.LIBSSH2SFTP_EAGAIN)).length + 1)
    ∧ (∀ pre post handle maxlen,
        (main K env argc argv).trace = pre ++ Event.sftp_readnb handle maxlen 0 :: post →
        ∀ ev ∈ post, ev.isReadnb = false) := by
  have hres : readnbResults (main K env argc argv).trace
      = (env.reads.takeWhile (continues K.LIBSSH2SFTP_EAGAIN)).map ReadResult.rc
          ++ (((env.reads.dropWhile (continues K.LIBSSH2SFTP_EAGAIN)).head?).map
                ReadResult.rc).toList := by
    rw [readnbResults_main K env argc argv hsetup, readnbResults_readLoop]
  refine ⟨hres, ?_, ?_⟩
  · intro r hr
    rw [hres, hr]
    simp
  · intro pre post handle maxlen hsplit
    apply readnbResults_eq_nil
    have h2 : readnbResults (main K env argc argv).trace
        = readnbResults pre ++ 0 :: readnbResults post := by
      rw [hsplit, readnbResults_append]
      rfl
    rw [hres] at h2
    refine split_at_zero (zero_not_mem_takeWhile _ hE _) ?_ h2
    cases (env.reads.dropWhile (continues K.LIBSSH2SFTP_EAGAIN)).head? <;> simp

/-- Witness for C3: the sample run makes four calls, the last of which returns 0. -/
theorem no_read_after_eof_witness :
    sampleHeaders.LIBSSH2SFTP_EAGAIN < 0 ∧ sampleEnv.reachesReadLoop
      ∧ readnbResults (main sampleHeaders sampleEnv 1 (argvOf ["sftp"])).trace
          = [-2, 3, -2, 0] :=
  ⟨by decide, by decide,
    (no_read_after_eof sampleHeaders sampleEnv 1 (argvOf ["sftp"])
      (by decide) (by decide)).1.trans (by decide)⟩

/-! Diagnostics -/

theorem dropWhile_append_of_forall {α : Type} (p : α → Bool) (l r : List α)
    (h : ∀ x ∈ l, p x = true) : (l ++ r).dropWhile p = r.dropWhile p := by
  induction l with
  | nil => rfl
  | cons x l ih =>
    have hx : p x = true := h x (List.mem_cons_self _ _)
    simp only [List.cons_append, List.dropWhile_cons, hx, if_true]
    exact ih (fun y hy => h y (List.mem_cons_of_mem _ hy))

/-- The messages after the first failed call, when the position of that call is known. -/
theorem messagesAfterFailure_split (e : Int) (pre post : List Event) (f : Event)
    (hpre : ∀ x ∈ pre, x.failed e = false) (hf : f.failed e = true) :
    messagesAfterFailure e (pre ++ f :: post) = post.filter Event.isMessage := by
  unfold messagesAfterFailure
  rw [dropWhile_append_of_forall _ _ _ (by intro x hx; simp [hpre x hx])]
  simp [List.dropWhile_cons, hf]

theorem failed_printFingerprint (e : Int) (f : Nat → Nat) :
    ∀ x ∈ printFingerprint f, x.failed e = false := by
  intro x hx
  obtain ⟨s, rfl⟩ := mem_printFingerprint hx
  rfl

theorem diagnosticOf_readLoop {e : Int} {h : Nat} {rs : List ReadResult} {ev : Event}
    (hev : ev ∈ (readLoop e h rs).1) : diagnosticOf ev = none := by
  rcases mem_readLoop hev with ⟨rc, rfl⟩ | ⟨bs, rfl⟩ | rfl <;> rfl

theorem failed_connectSeg (K : Headers) (env : Env) (argc : Int) (argv : Nat → String)
    (e : Int) (c : env.connect = 0) : ∀ x ∈ connectSeg K env argc argv, x.failed e = false := by
  simp [connectSeg, Event.failed, c]

theorem failed_initSeg (K : Headers) (env : Env) (e : Int) (c : env.session_init ≠ 0) :
    ∀ x ∈ initSeg K env, x.failed e = false := by
  simp [initSeg, Event.failed, c]

theorem failed_startupSeg (env : Env) (e : Int) (c : env.session_startup = 0) :
    ∀ x ∈ startupSeg env, x.failed e = false := by
  simp [startupSeg, Event.failed, c]

theorem failed_authSeg (K : Headers) (env : Env) (argc : Int) (argv : Nat → String)
    (e : Int) (c : env.userauth_password = 0) :
    ∀ x ∈ authSeg K env argc argv, x.failed e = false := by
  unfold authSeg
  refine List.forall_mem_append.2 ⟨List.forall_mem_append.2 ⟨?_, ?_⟩, ?_⟩
  · simp [Event.failed]
  · exact failed_printFingerprint e _
  · simp [Event.failed, c]

theorem failed_sftpInitSeg (env : Env) (e : Int) (c : env.sftp_init ≠ 0) :
    ∀ x ∈ sftpInitSeg env, x.failed e = false := by
  simp [sftpInitSeg, Event.failed, c]

theorem failed_openSeg (K : Headers) (env : Env) (argc : Int) (argv : Nat → String)
    (e : Int) (c : env.sftp_open ≠ 0) : ∀ x ∈ openSeg K env argc argv, x.failed e = false := by
  simp [openSeg, Event.failed, c]

theorem failed_closeSeg (env : Env) (e : Int) : ∀ x ∈ closeSeg env, x.failed e = false := by
  simp [closeSeg, Event.failed]

theorem failed_shutdownSeg (env : Env) (e : Int) :
    ∀ x ∈ shutdownSeg env, x.failed e = false := by
  simp [shutdownSeg, shutdown, Event.failed]

/-- A trace with a single failed call, whose diagnostic heads the messages
that follow it. -/
theorem diagnosed_of_split (e : Int) (pre post : List Event) (f : Event)
    (hpre : ∀ x ∈ pre, x.failed e = false) (hf : f.failed e = true)
    (hpost : ∀ x ∈ post, x.failed e = false)
    (hhead : (post.filter Event.isMessage).head? = diagnosticOf f)
    (ev d : Event) (hev : ev ∈ pre ++ f :: post) (hfail : ev.failed e = true)
    (hd : diagnosticOf ev = some d) :
    (messagesAfterFailure e (pre ++ f :: post)).head? = some d := by
  rw [messagesAfterFailure_split e pre post f hpre hf, hhead]
  rcases List.mem_append.1 hev with h | h
  · rw [hpre ev h] at hfail
    exact absurd hfail (by simp)
  · rcases List.mem_cons.1 h with h | h
    · rw [h] at hd
      exact hd
    · rw [hpost ev h] at hfail
      exact absurd hfail (by simp)

/-- C4 (amended): a failure of `connect`, `libssh2_session_startup`,
`libssh2_userauth_password`, `libssh2_sftp_init` or `libssh2_sftp_open` is
followed by its diagnostic: the first message printed after the failed call is
the one the source prints for that call. -/
theorem failure_diagnosed (K : Headers) (env : Env) (argc : Int) (argv : Nat → String)
    (ev d : Event) (hev : ev ∈ (main K env argc argv).trace)
    (hfail : ev.failed K.LIBSSH2SFTP_EAGAIN = true) (hd : diagnosticOf ev = some d) :
    (messagesAfterFailure K.LIBSSH2SFTP_EAGAIN (main K env argc argv).trace).head? = some d := by
  have fC := failed_connectSeg K env argc argv K.LIBSSH2SFTP_EAGAIN
  have fI := failed_initSeg K env K.LIBSSH2SFTP_EAGAIN
  have fS := failed_startupSeg env K.LIBSSH2SFTP_EAGAIN
  have fA := failed_authSeg K env argc argv K.LIBSSH2SFTP_EAGAIN
  have fN := failed_sftpInitSeg env K.LIBSSH2SFTP_EAGAIN
  have fO := failed_openSeg K env argc argv K.LIBSSH2SFTP_EAGAIN
  have fX := failed_shutdownSeg env K.LIBSSH2SFTP_EAGAIN
  have fP := failed_printFingerprint K.LIBSSH2SFTP_EAGAIN env.hostkey_hash
  rcases main_cases K env argc argv with ⟨c, hm⟩ | ⟨c1, c2, hm⟩ | ⟨c1, c2, c3, hm⟩
    | ⟨c1, c2, c3, c4, hm⟩ | ⟨c1, c2, c3, c4, c5, hm⟩ | ⟨c1, c2, c3, c4, c5, c6, hm⟩
    | ⟨⟨c1, c2, c3, c4, c5, c6⟩, hl, hm⟩ | ⟨⟨c1, c2, c3, c4, c5, c6⟩, hl, hm⟩
  · -- connect fails
    have hs : (main K env argc argv).trace
        = [Event.socket K.AF_INET K.SOCK_STREAM 0 env.socket]
          ++ Event.connect env.socket K.AF_INET (env.htons 22)
              (if argc > 1 then env.inet_addr (argv 1) else env.htonl 0x7F000001) env.connect
            :: [Event.fprintf_stderr "failed to connect!\n"] := by
      rw [hm]; simp [connectSeg]
    rw [hs] at hev ⊢
    refine diagnosed_of_split _ _ _ _ ?_ ?_ ?_ ?_ ev d hev hfail hd
    · simp [Event.failed]
    · simp [Event.failed, c]
    · simp [Event.failed]
    · simp [Event.isMessage, diagnosticOf]
  · -- session_init fails: no call of the run has a diagnostic
    rw [hm] at hev
    rcases List.mem_append.1 hev with h | h
    · rw [fC c1 ev h] at hfail
      exact absurd hfail (by simp)
    · simp only [initSeg, List.mem_cons, List.mem_singleton, List.not_mem_nil, or_false] at h
      rcases h with rfl | rfl | rfl <;> simp [diagnosticOf] at hd
  · -- session_startup fails
    have hs : (main K env argc argv).trace
        = (connectSeg K env argc argv ++ initSeg K env)
          ++ Event.session_startup env.session_init env.socket env.session_startup
            :: [Event.fprintf_stderr
                ("Failure establishing SSH session: " ++ toString env.session_startup ++ "\n")] := by
      rw [hm]; simp [startupSeg]
    rw [hs] at hev ⊢
    refine diagnosed_of_split _ _ _ _ ?_ ?_ ?_ ?_ ev d hev hfail hd
    · exact (List.forall_mem_append.2 ⟨fC c1, fI c2⟩)
    · simp [Event.failed, c3]
    · simp [Event.failed]
    · simp [Event.isMessage, diagnosticOf]
  · -- authentication fails
    have hs : (main K env argc argv).trace
        = (connectSeg K env argc argv ++ initSeg K env ++ startupSeg env
            ++ ([Event.hostkey_hash env.session_init K.LIBSSH2_HOSTKEY_HASH_MD5]
                ++ printFingerprint env.hostkey_hash))
          ++ Event.userauth_password env.session_init
              (if argc > 2 then argv 2 else "username")
              (if argc > 3 then argv 3 else "password") env.userauth_password
            :: ([Event.printf "Authentication by password failed.\n"] ++ shutdownSeg env) := by
      rw [hm]; simp [authSeg]
    rw [hs] at hev ⊢
    refine diagnosed_of_split _ _ _ _ ?_ ?_ ?_ ?_ ev d hev hfail hd
    · exact (List.forall_mem_append.2 ⟨List.forall_mem_append.2 ⟨List.forall_mem_append.2
        ⟨fC c1, fI c2⟩, fS c3⟩, List.forall_mem_append.2 ⟨by simp [Event.failed], fP⟩⟩)
    · simp [Event.failed, c4]
    · exact (List.forall_mem_append.2 ⟨by simp [Event.failed], fX⟩)
    · simp [Event.isMessage, List.filter_cons, diagnosticOf]
  · -- libssh2_sftp_init fails
    have hs : (main K env argc argv).trace
        = (connectSeg K env argc argv ++ initSeg K env ++ startupSeg env
            ++ authSeg K env argc argv ++ [Event.fprintf_stderr "libssh2_sftp_init()!\n"])
          ++ Event.sftp_init env.session_init env.sftp_init
            :: ([Event.fprintf_stderr "Unable to init SFTP session\n"] ++ shutdownSeg env) := by
      rw [hm]; simp [sftpInitSeg]
    rw [hs] at hev ⊢
    refine diagnosed_of_split _ _ _ _ ?_ ?_ ?_ ?_ ev d hev hfail hd
    · exact (List.forall_mem_append.2 ⟨List.forall_mem_append.2 ⟨List.forall_mem_append.2
        ⟨List.forall_mem_append.2 ⟨fC c1, fI c2⟩, fS c3⟩, fA c4⟩, by simp [Event.failed]⟩)
    · simp [Event.failed, c5]
    · exact (List.forall_mem_append.2 ⟨by simp [Event.failed], fX⟩)
    · simp [Event.isMessage, List.filter_cons, diagnosticOf]
  · -- libssh2_sftp_open fails
    have hs : (main K env argc argv).trace
        = (connectSeg K env argc argv ++ initSeg K env ++ startupSeg env
            ++ authSeg K env argc argv ++ sftpInitSeg env
            ++ [Event.sftp_set_blocking env.sftp_init 0,
                Event.fprintf_stderr "libssh2_sftp_open()!\n"])
          ++ Event.sftp_open env.sftp_init (if argc > 4 then argv 4 else "/tmp/TEST")
              K.LIBSSH2_FXF_READ 0 env.sftp_open
            :: ([Event.fprintf_stderr "Unable to open file with SFTP\n"] ++ shutdownSeg env) := by
      rw [hm]; simp [openSeg]
    rw [hs] at hev ⊢
    refine diagnosed_of_split _ _ _ _ ?_ ?_ ?_ ?_ ev d hev hfail hd
    · exact (List.forall_mem_append.2 ⟨List.forall_mem_append.2 ⟨List.forall_mem_append.2
        ⟨List.forall_mem_append.2 ⟨List.forall_mem_append.2 ⟨fC c1, fI c2⟩, fS c3⟩, fA c4⟩,
          fN c5⟩, by simp [Event.failed]⟩)
    · simp [Event.failed, c6]
    · exact (List.forall_mem_append.2 ⟨by simp [Event.failed], fX⟩)
    · simp [Event.isMessage, List.filter_cons, diagnosticOf]
  · -- the read loop was left: a failed call can only be a read, which has no diagnostic
    rw [hm] at hev
    simp only [List.mem_append] at hev
    rcases hev with (((((((h | h) | h) | h) | h) | h) | h) | h) | h
    · rw [fC c1 ev h] at hfail; exact absurd hfail (by simp)
    · rw [fI c2 ev h] at hfail; exact absurd hfail (by simp)
    · rw [fS c3 ev h] at hfail; exact absurd hfail (by simp)
    · rw [fA c4 ev h] at hfail; exact absurd hfail (by simp)
    · rw [fN c5 ev h] at hfail; exact absurd hfail (by simp)
    · rw [fO c6 ev h] at hfail; exact absurd hfail (by simp)
    · simp only [loopSeg, List.mem_append, List.mem_cons, List.mem_singleton,
        List.not_mem_nil, or_false] at h
      rcases h with (rfl | rfl) | h
      · simp [diagnosticOf] at hd
      · simp [diagnosticOf] at hd
      · rw [diagnosticOf_readLoop h] at hd; exact absurd hd (by simp)
    · rw [failed_closeSeg env _ ev h] at hfail; exact absurd hfail (by simp)
    · rw [fX ev h] at hfail; exact absurd hfail (by simp)
  · rw [hm] at hev
    simp only [List.mem_append] at hev
    rcases hev with (((((h | h) | h) | h) | h) | h) | h
    · rw [fC c1 ev h] at hfail; exact absurd hfail (by simp)
    · rw [fI c2 ev h] at hfail; exact absurd hfail (by simp)
    · rw [fS c3 ev h] at hfail; exact absurd hfail (by simp)
    · rw [fA c4 ev h] at hfail; exact absurd hfail (by simp)
    · rw [fN c5 ev h] at hfail; exact absurd hfail (by simp)
    · rw [fO c6 ev h] at hfail; exact absurd hfail (by simp)
    · simp only [loopSeg, List.mem_append, List.mem_cons, List.mem_singleton,
        List.not_mem_nil, or_false] at h
      rcases h with (rfl | rfl) | h
      · simp [diagnosticOf] at hd
      · simp [diagnosticOf] at hd
      · rw [diagnosticOf_readLoop h] at hd; exact absurd hd (by simp)

/-- Witness for C4 (amended): a rejected password is followed by its message. -/
theorem failure_diagnosed_witness :
    Event.userauth_password 100 "username" "password" (-18)
        ∈ (main sampleHeaders authFailEnv 1 (argvOf ["sftp"])).trace
      ∧ (Event.userauth_password 100 "username" "password" (-18)).failed
          sampleHeaders.LIBSSH2SFTP_EAGAIN = true
      ∧ diagnosticOf (Event.userauth_password 100 "username" "password" (-18))
          = some (Event.printf "Authentication by password failed.\n")
      ∧ (messagesAfterFailure sampleHeaders.LIBSSH2SFTP_EAGAIN
            (main sampleHeaders authFailEnv 1 (argvOf ["sftp"])).trace).head?
          = some (Event.printf "Authentication by password failed.\n") :=
  ⟨by decide, by decide, rfl,
    failure_diagnosed sampleHeaders authFailEnv 1 (argvOf ["sftp"])
      (Event.userauth_password 100 "username" "password" (-18))
      (Event.printf "Authentication by password failed.\n") (by decide) (by decide) rfl⟩

/-- C4 as stated fails at two failures.  When `libssh2_session_init` returns
`NULL` the run prints nothing at all and returns -1.  When
`libssh2_sftp_readnb` returns the error -1 the only message after the failed
call is the closing line, and the run prints the same text and returns the
same value as the run in which that call returned 0. -/
theorem failure_without_diagnostic :
    (Event.session_init 0 ∈ (main sampleHeaders initNullEnv 1 (argvOf ["sftp"])).trace
      ∧ (Event.session_init 0).failed sampleHeaders.LIBSSH2SFTP_EAGAIN = true
      ∧ (main sampleHeaders initNullEnv 1 (argvOf ["sftp"])).trace.filter Event.isMessage = []
      ∧ (main sampleHeaders initNullEnv 1 (argvOf ["sftp"])).ret = some (-1))
    ∧ (Event.sftp_readnb 300 1024 (-1)
          ∈ (main sampleHeaders readErrorEnv 1 (argvOf ["sftp"])).trace
      ∧ (Event.sftp_readnb 300 1024 (-1)).failed sampleHeaders.LIBSSH2SFTP_EAGAIN = true
      ∧ messagesAfterFailure sampleHeaders.LIBSSH2SFTP_EAGAIN
            (main sampleHeaders readErrorEnv 1 (argvOf ["sftp"])).trace
          = [Event.printf "all done\n"]
      ∧ (main sampleHeaders readErrorEnv 1 (argvOf ["sftp"])).trace.filter Event.isOutput
          = (main sampleHeaders readEofEnv 1 (argvOf ["sftp"])).trace.filter Event.isOutput
      ∧ (main sampleHeaders readErrorEnv 1 (argvOf ["sftp"])).ret = some 0
      ∧ (main sampleHeaders readEofEnv 1 (argvOf ["sftp"])).ret = some 0) := by
  decide

/-! Order of the calls -/

/-- Events before the first SFTP call: everything up to authentication. -/
theorem isSftpCall_setup (K : Headers) (env : Env) (argc : Int) (argv : Nat → String) :
    ∀ x ∈ connectSeg K env argc argv ++ initSeg K env ++ startupSeg env
        ++ authSeg K env argc argv, x.isSftpCall = false := by
  refine List.forall_mem_append.2 ⟨?_, ?_⟩
  · simp [connectSeg, initSeg, startupSeg, Event.isSftpCall]
  · unfold authSeg
    refine List.forall_mem_append.2 ⟨List.forall_mem_append.2 ⟨?_, ?_⟩, ?_⟩
    · simp [Event.isSftpCall]
    · intro x hx
      obtain ⟨s, rfl⟩ := mem_printFingerprint hx
      rfl
    · simp [Event.isSftpCall]

/-- A marked event of a trace that starts with unmarked events lies after them. -/
theorem split_after_setup {α : Type} (p : α → Bool) (setup rest pre post : List α) (ev : α)
    (hsetup : ∀ x ∈ setup, p x = false) (hev : p ev = true)
    (h : setup ++ rest = pre ++ ev :: post) : ∃ mid, pre = setup ++ mid := by
  rcases List.append_eq_append_iff.1 h with ⟨a, ha, _⟩ | ⟨c, hc, hc2⟩
  · exact ⟨a, ha⟩
  · cases c with
    | nil => exact ⟨[], by simpa using hc.symm⟩
    | cons y c =>
      simp only [List.cons_append, List.cons.injEq] at hc2
      have hy : y ∈ setup := by rw [hc]; simp
      rw [← hc2.1] at hy
      rw [hsetup ev hy] at hev
      exact absurd hev (by simp)

theorem handshake_sublist (K : Headers) (env : Env) (argc : Int) (argv : Nat → String)
    (c1 : env.connect = 0) (c3 : env.session_startup = 0) (c4 : env.userauth_password = 0) :
    List.Sublist
      [ Event.connect env.socket K.AF_INET (env.htons 22)
          (if argc > 1 then env.inet_addr (argv 1) else env.htonl 0x7F000001) 0,
        Event.session_init env.session_init,
        Event.session_startup env.session_init env.socket 0,
        Event.userauth_password env.session_init (if argc > 2 then argv 2 else "username")
          (if argc > 3 then argv 3 else "password") 0 ]
      (connectSeg K env argc argv ++ initSeg K env ++ startupSeg env
        ++ authSeg K env argc argv) := by
  have s1 : List.Sublist
      [Event.connect env.socket K.AF_INET (env.htons 22)
          (if argc > 1 then env.inet_addr (argv 1) else env.htonl 0x7F000001) 0]
      (connectSeg K env argc argv) :=
    List.singleton_sublist.2 (by simp [connectSeg, c1])
  have s2 : List.Sublist [Event.session_init env.session_init] (initSeg K env) :=
    List.singleton_sublist.2 (by simp [initSeg])
  have s3 : List.Sublist [Event.session_startup env.session_init env.socket 0]
      (startupSeg env) :=
    List.singleton_sublist.2 (by simp [startupSeg, c3])
  have s4 : List.Sublist
      [Event.userauth_password env.session_init (if argc > 2 then argv 2 else "username")
          (if argc > 3 then argv 3 else "password") 0]
      (authSeg K env argc argv) :=
    List.singleton_sublist.2 (by simp [authSeg, c4])
  exact ((s1.append s2).append s3).append s4

/-- C5: SFTP is only used over a connected, handshaken and authenticated
session.  Whenever a run makes an SFTP call, the trace before that call
contains, in this order, a `connect` that returned 0, a `libssh2_session_init`
that returned a non-NULL session, a `libssh2_session_startup` on that session
that returned 0 and a `libssh2_userauth_password` on it that returned 0. -/
theorem sftp_only_after_auth (K : Headers) (env : Env) (argc : Int) (argv : Nat → String)
    (pre post : List Event) (ev : Event)
    (hsplit : (main K env argc argv).trace = pre ++ ev :: post)
    (hsftp : ev.isSftpCall = true) :
    ∃ sock family port addr session user pass, session ≠ 0 ∧
      List.Sublist
        [ Event.connect sock family port addr 0,
          Event.session_init session,
          Event.session_startup session sock 0,
          Event.userauth_password session user pass 0 ] pre := by
  have hno := isSftpCall_setup K env argc argv
  have hmem : ev ∈ (main K env argc argv).trace := by rw [hsplit]; simp
  -- every run that gets past authentication starts with the four calls
  have key : ∀ rest, env.connect = 0 → env.session_init ≠ 0 → env.session_startup = 0 →
      env.userauth_password = 0 →
      (main K env argc argv).trace
        = (connectSeg K env argc argv ++ initSeg K env ++ startupSeg env
            ++ authSeg K env argc argv) ++ rest →
      ∃ sock family port addr session user pass, session ≠ 0 ∧
        List.Sublist
          [ Event.connect sock family port addr 0,
            Event.session_init session,
            Event.session_startup session sock 0,
            Event.userauth_password session user pass 0 ] pre := by
    intro rest c1 c2 c3 c4 hs
    rw [hsplit] at hs
    obtain ⟨mid, hmid⟩ := split_after_setup Event.isSftpCall _ rest pre post ev hno hsftp hs.symm
    refine ⟨env.socket, K.AF_INET, env.htons 22,
      (if argc > 1 then env.inet_addr (argv 1) else env.htonl 0x7F000001), env.session_init,
      (if argc > 2 then argv 2 else "username"), (if argc > 3 then argv 3 else "password"),
      c2, ?_⟩
    rw [hmid]
    exact List.sublist_append_of_sublist_left (handshake_sublist K env argc argv c1 c3 c4)
  rcases main_cases K env argc argv with ⟨c, hm⟩ | ⟨c1, c2, hm⟩ | ⟨c1, c2, c3, hm⟩
    | ⟨c1, c2, c3, c4, hm⟩ | ⟨c1, c2, c3, c4, c5, hm⟩ | ⟨c1, c2, c3, c4, c5, c6, hm⟩
    | ⟨⟨c1, c2, c3, c4, c5, c6⟩, hl, hm⟩ | ⟨⟨c1, c2, c3, c4, c5, c6⟩, hl, hm⟩
  · rw [hm] at hmem
    simp only [connectSeg, List.mem_append, List.mem_cons, List.mem_singleton,
      List.not_mem_nil, or_false] at hmem
    rcases hmem with (rfl | rfl) | rfl <;> simp [Event.isSftpCall] at hsftp
  · rw [hm] at hmem
    simp only [connectSeg, initSeg, List.mem_append, List.mem_cons, List.mem_singleton,
      List.not_mem_nil, or_false] at hmem
    rcases hmem with (rfl | rfl) | rfl | rfl | rfl <;> simp [Event.isSftpCall] at hsftp
  · rw [hm] at hmem
    simp only [connectSeg, initSeg, startupSeg, List.mem_append, List.mem_cons,
      List.mem_singleton, List.not_mem_nil, or_false] at hmem
    rcases hmem with (((rfl | rfl) | rfl | rfl | rfl) | rfl) | rfl <;>
      simp [Event.isSftpCall] at hsftp
  · rw [hm] at hmem
    rcases List.mem_append.1 hmem with h | h
    · rcases List.mem_append.1 h with h | h
      · rw [hno ev h] at hsftp
        exact absurd hsftp (by simp)
      · simp only [List.mem_singleton] at h
        subst h
        simp [Event.isSftpCall] at hsftp
    · simp only [shutdownSeg, shutdown, List.mem_cons, List.mem_singleton,
        List.not_mem_nil, or_false] at h
      rcases h with rfl | rfl | rfl | rfl | rfl <;> simp [Event.isSftpCall] at hsftp
  · exact key (sftpInitSeg env ++ [Event.fprintf_stderr "Unable to init SFTP session\n"]
      ++ shutdownSeg env) c1 c2 c3 c4 (by rw [hm]; simp only [List.append_assoc])
  · exact key (sftpInitSeg env ++ openSeg K env argc argv
      ++ [Event.fprintf_stderr "Unable to open file with SFTP\n"] ++ shutdownSeg env)
      c1 c2 c3 c4 (by rw [hm]; simp only [List.append_assoc])
  · exact key (sftpInitSeg env ++ openSeg K env argc argv ++ loopSeg K env ++ closeSeg env
      ++ shutdownSeg env) c1 c2 c3 c4 (by rw [hm]; simp only [List.append_assoc])
  · exact key (sftpInitSeg env ++ openSeg K env argc argv ++ loopSeg K env)
      c1 c2 c3 c4 (by rw [hm]; simp only [List.append_assoc])

/-- Witness for C5: in the sample run the first read call comes after the four
calls that set the session up. -/
theorem sftp_only_after_auth_witness :
    ∃ pre post,
      (main sampleHeaders sampleEnv 1 (argvOf ["sftp"])).trace
          = pre ++ Event.sftp_readnb 300 1024 (-2) :: post
      ∧ (Event.sftp_readnb 300 1024 (-2)).isSftpCall = true
      ∧ ∃ sock family port addr session user pass, session ≠ 0 ∧
          List.Sublist
            [ Event.connect sock family port addr 0,
              Event.session_init session,
              Event.session_startup session sock 0,
              Event.userauth_password session user pass 0 ] pre :=
  ⟨(main sampleHeaders sampleEnv 1 (argvOf ["sftp"])).trace.take 33,
    (main sampleHeaders sampleEnv 1 (argvOf ["sftp"])).trace.drop 34,
    by decide, rfl,
    sftp_only_after_auth sampleHeaders sampleEnv 1 (argvOf ["sftp"])
      ((main sampleHeaders sampleEnv 1 (argvOf ["sftp"])).trace.take 33)
      ((main sampleHeaders sampleEnv 1 (argvOf ["sftp"])).trace.drop 34)
      (Event.sftp_readnb 300 1024 (-2)) (by decide) rfl⟩

/-! Command line -/

theorem connect_not_mem_readLoop (e : Int) (h : Nat) (rs : List ReadResult)
    (sock family port addr ret : Int) :
    Event.connect sock family port addr ret ∉ (readLoop e h rs).1 := by
  intro hx
  rcases mem_readLoop hx with ⟨rc, h1⟩ | ⟨bs, h1⟩ | h1 <;> cases h1

theorem userauth_not_mem_readLoop (e : Int) (h : Nat) (rs : List ReadResult)
    (s : Nat) (u p : String) (ret : Int) :
    Event.userauth_password s u p ret ∉ (readLoop e h rs).1 := by
  intro hx
  rcases mem_readLoop hx with ⟨rc, h1⟩ | ⟨bs, h1⟩ | h1 <;> cases h1

theorem open_not_mem_readLoop (e : Int) (h : Nat) (rs : List ReadResult)
    (s : Nat) (path : String) (flags mode : Int) (ret : Nat) :
    Event.sftp_open s path flags mode ret ∉ (readLoop e h rs).1 := by
  intro hx
  rcases mem_readLoop hx with ⟨rc, h1⟩ | ⟨bs, h1⟩ | h1 <;> cases h1

/-- C6: command-line defaults and overrides.  The address passed to `connect`
is `inet_addr(argv[1])` when `argc > 1` and `htonl(0x7F000001)` otherwise, with
port `htons(22)`; the user name and password passed to
`libssh2_userauth_password` are `argv[2]` and `argv[3]` when present and
"username" and "password" otherwise; the path passed to `libssh2_sftp_open` is
`argv[4]` when present and "/tmp/TEST" otherwise, with flags
`LIBSSH2_FXF_READ` and mode 0.  Each value depends on its own argument only, and
the calls are made with these values whenever the run gets that far. -/
theorem command_line_arguments (K : Headers) (env : Env) (argc : Int) (argv : Nat → String) :
    Event.connect env.socket K.AF_INET (env.htons 22)
        (if argc > 1 then env.inet_addr (argv 1) else env.htonl 0x7F000001) env.connect
      ∈ (main K env argc argv).trace
    ∧ (∀ sock family port addr ret,
        Event.connect sock family port addr ret ∈ (main K env argc argv).trace →
        port = env.htons 22
          ∧ addr = (if argc > 1 then env.inet_addr (argv 1) else env.htonl 0x7F000001))
    ∧ (∀ session user pass ret,
        Event.userauth_password session user pass ret ∈ (main K env argc argv).trace →
        user = (if argc > 2 then argv 2 else "username")
          ∧ pass = (if argc > 3 then argv 3 else "password"))
    ∧ (∀ sftp path flags mode ret,
        Event.sftp_open sftp path flags mode ret ∈ (main K env argc argv).trace →
        path = (if argc > 4 then argv 4 else "/tmp/TEST")
          ∧ flags = K.LIBSSH2_FXF_READ ∧ mode = 0)
    ∧ (env.connect = 0 → env.session_init ≠ 0 → env.session_startup = 0 →
        Event.userauth_password env.session_init (if argc > 2 then argv 2 else "username")
            (if argc > 3 then argv 3 else "password") env.userauth_password
          ∈ (main K env argc argv).trace)
    ∧ (env.connect = 0 → env.session_init ≠ 0 → env.session_startup = 0 →
        env.userauth_password = 0 → env.sftp_init ≠ 0 →
        Event.sftp_open env.sftp_init (if argc > 4 then argv 4 else "/tmp/TEST")
            K.LIBSSH2_FXF_READ 0 env.sftp_open
          ∈ (main K env argc argv).trace) := by
  rcases main_cases K env argc argv with ⟨c, hm⟩ | ⟨c1, c2, hm⟩ | ⟨c1, c2, c3, hm⟩
    | ⟨c1, c2, c3, c4, hm⟩ | ⟨c1, c2, c3, c4, c5, hm⟩ | ⟨c1, c2, c3, c4, c5, c6, hm⟩
    | ⟨⟨c1, c2, c3, c4, c5, c6⟩, hl, hm⟩ | ⟨⟨c1, c2, c3, c4, c5, c6⟩, hl, hm⟩ <;>
  · rw [hm]
    simp only [connectSeg, initSeg, startupSeg, authSeg, sftpInitSeg, openSeg, loopSeg,
      closeSeg, shutdownSeg, shutdown, printFingerprint]
    refine ⟨?_, ?_, ?_, ?_, ?_, ?_⟩ <;>
      simp_all [connect_not_mem_readLoop, userauth_not_mem_readLoop, open_not_mem_readLoop]

/-- Witness for C6: with a host and a user name on the command line, the
password and the path keep their defaults. -/
theorem command_line_arguments_witness :
    Event.connect 3 2 5632 16777343 0 ∈ (main sampleHeaders sampleEnv 3 sampleArgv).trace
      ∧ Event.userauth_password 100 "bob" "password" 0
          ∈ (main sampleHeaders sampleEnv 3 sampleArgv).trace
      ∧ Event.sftp_open 200 "/tmp/TEST" 1 0 300
          ∈ (main sampleHeaders sampleEnv 3 sampleArgv).trace :=
  ⟨(command_line_arguments sampleHeaders sampleEnv 3 sampleArgv).1,
    (command_line_arguments sampleHeaders sampleEnv 3 sampleArgv).2.2.2.2.1
      (by decide) (by decide) (by decide),
    (command_line_arguments sampleHeaders sampleEnv 3 sampleArgv).2.2.2.2.2
      (by decide) (by decide) (by decide) (by decide) (by decide)⟩

/-! Life of the file handle -/

theorem handleCalls_readLoop (e : Int) (h : Nat) (rs : List ReadResult) :
    (readLoop e h rs).1.filter Event.isHandleCall
      = (readnbResults (readLoop e h rs).1).map (fun rc => Event.sftp_readnb h 1024 rc) := by
  induction rs with
  | nil => simp [readLoop, readnbResults]
  | cons r rs ih =>
    by_cases h1 : r.rc = e
    · simp [readLoop, h1, readnbResults, List.filter_cons, Event.isHandleCall, ih]
    · by_cases h2 : r.rc > 0
      · simp [readLoop, h1, h2, readnbResults, List.filter_cons, Event.isHandleCall, ih]
      · simp [readLoop, h1, h2, readnbResults, List.filter_cons, Event.isHandleCall]

theorem readnbResults_ne_nil_of_left (e : Int) (h : Nat) (rs : List ReadResult)
    (hl : (readLoop e h rs).2 = true) : readnbResults (readLoop e h rs).1 ≠ [] := by
  rw [readnbResults_readLoop]
  rw [readLoop_left] at hl
  cases hh : (rs.dropWhile (continues e)).head? with
  | none => simp [hh] at hl
  | some r => simp

/-- The calls on the file handle in a complete trace with a finished read loop. -/
theorem handleCalls_main (K : Headers) (env : Env) (argc : Int) (argv : Nat → String) :
    (main K env argc argv).trace.filter Event.isHandleCall
      = if env.reachesReadLoop then
          (readnbResults (main K env argc argv).trace).map
              (fun rc => Event.sftp_readnb env.sftp_open 1024 rc)
            ++ (if (main K env argc argv).ret = none then [] else [Event.sftp_close env.sftp_open])
        else [] := by
  have hfp := filter_printFingerprint_nil Event.isHandleCall (fun _ => rfl) env.hostkey_hash
  have hrp := readnbResults_printFingerprint env.hostkey_hash
  have hlp := handleCalls_readLoop K.LIBSSH2SFTP_EAGAIN env.sftp_open env.reads
  rcases main_cases K env argc argv with ⟨c, hm⟩ | ⟨c1, c2, hm⟩ | ⟨c1, c2, c3, hm⟩
    | ⟨c1, c2, c3, c4, hm⟩ | ⟨c1, c2, c3, c4, c5, hm⟩ | ⟨c1, c2, c3, c4, c5, c6, hm⟩
    | ⟨hr, hl, hm⟩ | ⟨hr, hl, hm⟩
  · have hn : ¬ env.reachesReadLoop := fun h => c h.1
    rw [hm, if_neg hn]
    simp [connectSeg, List.filter_cons, Event.isHandleCall]
  · have hn : ¬ env.reachesReadLoop := fun h => h.2.1 c2
    rw [hm, if_neg hn]
    simp [connectSeg, initSeg, List.filter_cons, Event.isHandleCall]
  · have hn : ¬ env.reachesReadLoop := fun h => c3 h.2.2.1
    rw [hm, if_neg hn]
    simp [connectSeg, initSeg, startupSeg, List.filter_cons, Event.isHandleCall]
  · have hn : ¬ env.reachesReadLoop := fun h => c4 h.2.2.2.1
    rw [hm, if_neg hn]
    simp [connectSeg, initSeg, startupSeg, authSeg, shutdownSeg, shutdown, List.filter_cons,
      Event.isHandleCall, hfp]
  · have hn : ¬ env.reachesReadLoop := fun h => h.2.2.2.2.1 c5
    rw [hm, if_neg hn]
    simp [connectSeg, initSeg, startupSeg, authSeg, sftpInitSeg, shutdownSeg, shutdown,
      List.filter_cons, Event.isHandleCall, hfp]
  · have hn : ¬ env.reachesReadLoop := fun h => h.2.2.2.2.2 c6
    rw [hm, if_neg hn]
    simp [connectSeg, initSeg, startupSeg, authSeg, sftpInitSeg, openSeg, shutdownSeg, shutdown,
      List.filter_cons, Event.isHandleCall, hfp]
  · rw [hm, if_pos hr]
    simp [connectSeg, initSeg, startupSeg, authSeg, sftpInitSeg, openSeg, loopSeg, closeSeg,
      shutdownSeg, shutdown, List.filter_cons, Event.isHandleCall, hfp, hlp,
      readnbResults_append, readnbResults, hrp]
  · rw [hm, if_pos hr]
    simp [connectSeg, initSeg, startupSeg, authSeg, sftpInitSeg, openSeg, loopSeg,
      List.filter_cons, Event.isHandleCall, hfp, hlp, readnbResults_append, readnbResults, hrp]

/-- What a recorded call of `libssh2_sftp_open` says about the run. -/
theorem open_mem_main (K : Headers) (env : Env) (argc : Int) (argv : Nat → String) :
    (∀ sftp path flags mode handle,
        Event.sftp_open sftp path flags mode handle ∈ (main K env argc argv).trace →
        handle = env.sftp_open ∧ (handle ≠ 0 → env.reachesReadLoop))
    ∧ (env.reachesReadLoop →
        Event.sftp_open env.sftp_init (if argc > 4 then argv 4 else "/tmp/TEST")
            K.LIBSSH2_FXF_READ 0 env.sftp_open ∈ (main K env argc argv).trace) := by
  rcases main_cases K env argc argv with ⟨c, hm⟩ | ⟨c1, c2, hm⟩ | ⟨c1, c2, c3, hm⟩
    | ⟨c1, c2, c3, c4, hm⟩ | ⟨c1, c2, c3, c4, c5, hm⟩ | ⟨c1, c2, c3, c4, c5, c6, hm⟩
    | ⟨hr, hl, hm⟩ | ⟨hr, hl, hm⟩ <;>
  · rw [hm]
    simp only [connectSeg, initSeg, startupSeg, authSeg, sftpInitSeg, openSeg, loopSeg,
      closeSeg, shutdownSeg, shutdown, printFingerprint]
    refine ⟨?_, ?_⟩ <;>
      simp_all [open_not_mem_readLoop, Env.reachesReadLoop]

/-- C8 (amended): the file handle moves only forward through open, read,
close.  In every run in which `libssh2_sftp_open` returned a non-NULL handle and
some `libssh2_sftp_readnb` result is neither positive nor `LIBSSH2SFTP_EAGAIN`,
`main` returns, and the calls on the handle are the reads up to and including
that result, at least one, followed by exactly one `libssh2_sftp_close`,
whether the loop ended by 0 or by a negative result, with no call on the handle
after the close.  As long as no such result has arrived the run has not
returned and the calls on the handle are reads only.  In a run in which
`libssh2_sftp_open` returned `NULL`, or was never called, neither call is
made. -/
theorem handle_lifecycle (K : Headers) (env : Env) (argc : Int) (argv : Nat → String) :
    (∀ sftp path flags mode handle r,
        Event.sftp_open sftp path flags mode handle ∈ (main K env argc argv).trace →
        handle ≠ 0 →
        (env.reads.dropWhile (continues K.LIBSSH2SFTP_EAGAIN)).head? = some r →
        (main K env argc argv).ret = some 0
          ∧ readnbResults (main K env argc argv).trace
              = (env.reads.takeWhile (continues K.LIBSSH2SFTP_EAGAIN)).map ReadResult.rc
                  ++ [r.rc]
          ∧ (main K env argc argv).trace.filter Event.isHandleCall
              = (readnbResults (main K env argc argv).trace).map
                    (fun rc => Event.sftp_readnb handle 1024 rc)
                  ++ [Event.sftp_close handle])
    ∧ (∀ sftp path flags mode handle,
        Event.sftp_open sftp path flags mode handle ∈ (main K env argc argv).trace →
        handle ≠ 0 →
        (env.reads.dropWhile (continues K.LIBSSH2SFTP_EAGAIN)).head? = none →
        (main K env argc argv).ret = none
          ∧ (main K env argc argv).trace.filter Event.isHandleCall
              = env.reads.map (fun x => Event.sftp_readnb handle 1024 x.rc))
    ∧ (∀ sftp path flags mode,
        Event.sftp_open sftp path flags mode 0 ∈ (main K env argc argv).trace →
        (main K env argc argv).trace.filter Event.isHandleCall = [])
    ∧ ((∀ sftp path flags mode handle,
          Event.sftp_open sftp path flags mode handle ∉ (main K env argc argv).trace) →
        (main K env argc argv).trace.filter Event.isHandleCall = []) := by
  have hopen := open_mem_main K env argc argv
  have hcalls := handleCalls_main K env argc argv
  refine ⟨?_, ?_, ?_, ?_⟩
  · intro sftp path flags mode handle r hmem hne hstop
    obtain ⟨hh, hreach⟩ := hopen.1 sftp path flags mode handle hmem
    have hr := hreach hne
    have hl : (readLoop K.LIBSSH2SFTP_EAGAIN env.sftp_open env.reads).2 = true := by
      rw [readLoop_left, hstop]; rfl
    have hret : (main K env argc argv).ret = some 0 := by
      rw [main_of_reachesReadLoop K env argc argv hr, if_pos hl]
    have hne2 : (main K env argc argv).ret ≠ none := by rw [hret]; simp
    refine ⟨hret, ?_, ?_⟩
    · rw [readnbResults_main K env argc argv hr, readnbResults_readLoop, hstop]
      rfl
    · rw [hcalls, if_pos hr, if_neg hne2, hh]
  · intro sftp path flags mode handle hmem hne hstop
    obtain ⟨hh, hreach⟩ := hopen.1 sftp path flags mode handle hmem
    have hr := hreach hne
    have hl : ¬ (readLoop K.LIBSSH2SFTP_EAGAIN env.sftp_open env.reads).2 = true := by
      rw [readLoop_left, hstop]; simp
    have hret : (main K env argc argv).ret = none := by
      rw [main_of_reachesReadLoop K env argc argv hr, if_neg hl]
    have hall : env.reads.takeWhile (continues K.LIBSSH2SFTP_EAGAIN) = env.reads := by
      have h1 := List.takeWhile_append_dropWhile (continues K.LIBSSH2SFTP_EAGAIN) env.reads
      have h2 : env.reads.dropWhile (continues K.LIBSSH2SFTP_EAGAIN) = [] := by
        cases hd : env.reads.dropWhile (continues K.LIBSSH2SFTP_EAGAIN) with
        | nil => rfl
        | cons x xs => rw [hd] at hstop; simp at hstop
      rw [h2, List.append_nil] at h1
      exact h1
    refine ⟨hret, ?_⟩
    rw [hcalls, if_pos hr, if_pos hret, hh, readnbResults_main K env argc argv hr,
      readnbResults_readLoop, hstop, hall]
    simp
  · intro sftp path flags mode hmem
    obtain ⟨hh, _⟩ := hopen.1 sftp path flags mode 0 hmem
    have hn : ¬ env.reachesReadLoop := fun h => h.2.2.2.2.2 hh.symm
    rw [hcalls, if_neg hn]
  · intro hnone
    have hn : ¬ env.reachesReadLoop := fun h => hnone _ _ _ _ _ (hopen.2 h)
    rw [hcalls, if_neg hn]

set_option maxRecDepth 100000 in
/-- Witness for C8 (amended): the handle is closed after a loop ended by end of
file and after a loop ended by a read error. -/
theorem handle_lifecycle_witness :
    ((main sampleHeaders sampleEnv 1 (argvOf ["sftp"])).ret = some 0
      ∧ (main sampleHeaders sampleEnv 1 (argvOf ["sftp"])).trace.filter Event.isHandleCall
          = [ Event.sftp_readnb 300 1024 (-2), Event.sftp_readnb 300 1024 3,
              Event.sftp_readnb 300 1024 (-2), Event.sftp_readnb 300 1024 0,
              Event.sftp_close 300 ])
    ∧ ((main sampleHeaders readErrorEnv 1 (argvOf ["sftp"])).ret = some 0
      ∧ (main sampleHeaders readErrorEnv 1 (argvOf ["sftp"])).trace.filter Event.isHandleCall
          = [ Event.sftp_readnb 300 1024 (-1), Event.sftp_close 300 ]) :=
  ⟨⟨((handle_lifecycle sampleHeaders sampleEnv 1 (argvOf ["sftp"])).1 200 "/tmp/TEST" 1 0 300
        ⟨0, [97, 98, 99] ++ List.replicate 1021 0⟩ (by decide) (by decide) (by decide)).1,
    ((handle_lifecycle sampleHeaders sampleEnv 1 (argvOf ["sftp"])).1 200 "/tmp/TEST" 1 0 300
        ⟨0, [97, 98, 99] ++ List.replicate 1021 0⟩ (by decide) (by decide)
        (by decide)).2.2.trans (by decide)⟩,
   ⟨((handle_lifecycle sampleHeaders readErrorEnv 1 (argvOf ["sftp"])).1 200 "/tmp/TEST" 1 0
        300 ⟨-1, List.replicate 1024 0⟩ (by decide) (by decide) (by decide)).1,
    ((handle_lifecycle sampleHeaders readErrorEnv 1 (argvOf ["sftp"])).1 200 "/tmp/TEST" 1 0
        300 ⟨-1, List.replicate 1024 0⟩ (by decide) (by decide)
        (by decide)).2.2.trans (by decide)⟩⟩

set_option maxRecDepth 100000 in
/-- C8 as stated fails: in the run in which the handle is opened and every
read so far reported would-block, three reads are made on the handle, no close
is made, and `main` has not returned. -/
theorem handle_never_closed :
    Event.sftp_open 200 "/tmp/TEST" 1 0 300
        ∈ (main sampleHeaders hangEnv 1 (argvOf ["sftp"])).trace
      ∧ (main sampleHeaders hangEnv 1 (argvOf ["sftp"])).trace.filter Event.isHandleCall
          = [ Event.sftp_readnb 300 1024 (-2), Event.sftp_readnb 300 1024 (-2),
              Event.sftp_readnb 300 1024 (-2) ]
      ∧ Event.sftp_close 300 ∉ (main sampleHeaders hangEnv 1 (argvOf ["sftp"])).trace
      ∧ (main sampleHeaders hangEnv 1 (argvOf ["sftp"])).ret = none := by
  decide

/-! Exit status and teardown -/

theorem getLast_shutdownSeg (pre : List Event) (env : Env) :
    (pre ++ shutdownSeg env).getLast? = some (Event.printf "all done\n") := by
  have h : shutdownSeg env
      = [ Event.session_disconnect env.session_init "Normal Shutdown, Thank you for playing",
          Event.session_free env.session_init, Event.sleep 1, Event.close env.socket ]
        ++ [Event.printf "all done\n"] := rfl
  rw [h, ← List.append_assoc, List.getLast?_append]
  rfl

theorem abortsRun_printFingerprint (f : Nat → Nat) :
    ∀ x ∈ printFingerprint f, x.abortsRun = false := by
  intro x hx
  obtain ⟨s, rfl⟩ := mem_printFingerprint hx
  rfl

theorem abortsRun_readLoop (e : Int) (h : Nat) (rs : List ReadResult) :
    ∀ x ∈ (readLoop e h rs).1, x.abortsRun = false := by
  intro x hx
  rcases mem_readLoop hx with ⟨rc, rfl⟩ | ⟨bs, rfl⟩ | rfl <;> rfl

/-- After a successful handshake no event of the run is one of the three
failures that make `main` return -1. -/
theorem abortsRun_after_startup (K : Headers) (env : Env) (argc : Int) (argv : Nat → String)
    (c1 : env.connect = 0) (c2 : env.session_init ≠ 0) (c3 : env.session_startup = 0)
    (rest : List Event) (hrest : ∀ x ∈ rest, x.abortsRun = false) :
    ∀ x ∈ connectSeg K env argc argv ++ initSeg K env ++ startupSeg env
        ++ authSeg K env argc argv ++ rest, x.abortsRun = false := by
  refine List.forall_mem_append.2 ⟨List.forall_mem_append.2 ⟨?_, ?_⟩, hrest⟩
  · simp [connectSeg, initSeg, startupSeg, Event.abortsRun, c1, c2, c3]
  · unfold authSeg
    refine List.forall_mem_append.2 ⟨List.forall_mem_append.2 ⟨?_, ?_⟩, ?_⟩
    · simp [Event.abortsRun]
    · exact abortsRun_printFingerprint _
    · simp [Event.abortsRun]

theorem left_of_failed_readLoop (e : Int) (h : Nat) (rs : List ReadResult) (x : Event)
    (hx : x ∈ (readLoop e h rs).1) (hf : x.failed e = true) : (readLoop e h rs).2 = true := by
  induction rs with
  | nil => simp [readLoop] at hx
  | cons r rs ih =>
    by_cases h1 : r.rc = e
    · simp only [readLoop, h1, if_true, List.mem_cons] at hx ⊢
      rcases hx with rfl | hx
      · simp [Event.failed] at hf
      · exact ih hx
    · by_cases h2 : r.rc > 0
      · simp only [readLoop, h1, h2, if_true, if_false, List.mem_cons] at hx ⊢
        rcases hx with rfl | rfl | rfl | hx
        · simp only [Event.failed, Bool.and_eq_true, decide_eq_true_eq] at hf
          omega
        · simp [Event.failed] at hf
        · simp [Event.failed] at hf
        · exact ih hx
      · simp [readLoop, h1, h2]

/-- The return value of `main`, read off the shape of the run. -/
theorem ret_main (K : Headers) (env : Env) (argc : Int) (argv : Nat → String) :
    ((main K env argc argv).ret = some (-1)
        ∧ ∃ ev ∈ (main K env argc argv).trace, ev.abortsRun = true)
    ∨ ((main K env argc argv).ret = some 0
        ∧ (main K env argc argv).trace.getLast? = some (Event.printf "all done\n")
        ∧ ∀ ev ∈ (main K env argc argv).trace, ev.abortsRun = false)
    ∨ ((main K env argc argv).ret = none
        ∧ (∀ ev ∈ (main K env argc argv).trace, ev.abortsRun = false)
        ∧ ∀ ev ∈ (main K env argc argv).trace, ev.failed K.LIBSSH2SFTP_EAGAIN = false) := by
  have hX : ∀ x ∈ shutdownSeg env, x.abortsRun = false := by
    simp [shutdownSeg, shutdown, Event.abortsRun]
  rcases main_cases K env argc argv with ⟨c, hm⟩ | ⟨c1, c2, hm⟩ | ⟨c1, c2, c3, hm⟩
    | ⟨c1, c2, c3, c4, hm⟩ | ⟨c1, c2, c3, c4, c5, hm⟩ | ⟨c1, c2, c3, c4, c5, c6, hm⟩
    | ⟨⟨c1, c2, c3, c4, c5, c6⟩, hl, hm⟩ | ⟨⟨c1, c2, c3, c4, c5, c6⟩, hl, hm⟩
  · refine Or.inl ⟨by rw [hm], Event.connect env.socket K.AF_INET (env.htons 22)
      (if argc > 1 then env.inet_addr (argv 1) else env.htonl 0x7F000001) env.connect, ?_, ?_⟩
    · rw [hm]; simp [connectSeg]
    · simp [Event.abortsRun, c]
  · refine Or.inl ⟨by rw [hm], Event.session_init env.session_init, ?_, ?_⟩
    · rw [hm]; simp [initSeg]
    · simp [Event.abortsRun, c2]
  · refine Or.inl ⟨by rw [hm],
      Event.session_startup env.session_init env.socket env.session_startup, ?_, ?_⟩
    · rw [hm]; simp [startupSeg]
    · simp [Event.abortsRun, c3]
  · refine Or.inr (Or.inl ⟨by rw [hm], ?_, ?_⟩)
    · rw [hm]; exact getLast_shutdownSeg _ env
    · rw [hm]
      simp only [List.append_assoc]
      have := abortsRun_after_startup K env argc argv c1 c2 c3
        ([Event.printf "Authentication by password failed.\n"] ++ shutdownSeg env)
        (List.forall_mem_append.2 ⟨by simp [Event.abortsRun], hX⟩)
      simpa only [List.append_assoc] using this
  · refine Or.inr (Or.inl ⟨by rw [hm], ?_, ?_⟩)
    · rw [hm]; exact getLast_shutdownSeg _ env
    · rw [hm]
      have := abortsRun_after_startup K env argc argv c1 c2 c3
        (sftpInitSeg env ++ [Event.fprintf_stderr "Unable to init SFTP session\n"]
          ++ shutdownSeg env)
        (List.forall_mem_append.2 ⟨by simp [sftpInitSeg, Event.abortsRun], hX⟩)
      simpa only [List.append_assoc] using this
  · refine Or.inr (Or.inl ⟨by rw [hm], ?_, ?_⟩)
    · rw [hm]; exact getLast_shutdownSeg _ env
    · rw [hm]
      have := abortsRun_after_startup K env argc argv c1 c2 c3
        (sftpInitSeg env ++ openSeg K env argc argv
          ++ [Event.fprintf_stderr "Unable to open file with SFTP\n"] ++ shutdownSeg env)
        (List.forall_mem_append.2 ⟨by simp [sftpInitSeg, openSeg, Event.abortsRun], hX⟩)
      simpa only [List.append_assoc] using this
  · refine Or.inr (Or.inl ⟨by rw [hm], ?_, ?_⟩)
    · rw [hm]; exact getLast_shutdownSeg _ env
    · rw [hm]
      have := abortsRun_after_startup K env argc argv c1 c2 c3
        (sftpInitSeg env ++ openSeg K env argc argv ++ loopSeg K env ++ closeSeg env
          ++ shutdownSeg env)
        (List.forall_mem_append.2 ⟨List.forall_mem_append.2 ⟨List.forall_mem_append.2
          ⟨by simp [sftpInitSeg, openSeg, Event.abortsRun],
           List.forall_mem_append.2 ⟨by simp [Event.abortsRun], abortsRun_readLoop _ _ _⟩⟩,
           by simp [closeSeg, Event.abortsRun]⟩, hX⟩)
      simpa only [List.append_assoc] using this
  · refine Or.inr (Or.inr ⟨by rw [hm], ?_, ?_⟩)
    · rw [hm]
      have := abortsRun_after_startup K env argc argv c1 c2 c3
        (sftpInitSeg env ++ openSeg K env argc argv ++ loopSeg K env)
        (List.forall_mem_append.2 ⟨by simp [sftpInitSeg, openSeg, Event.abortsRun],
           List.forall_mem_append.2 ⟨by simp [Event.abortsRun], abortsRun_readLoop _ _ _⟩⟩)
      simpa only [List.append_assoc] using this
    · rw [hm]
      refine List.forall_mem_append.2 ⟨List.forall_mem_append.2 ⟨List.forall_mem_append.2
        ⟨List.forall_mem_append.2 ⟨List.forall_mem_append.2 ⟨List.forall_mem_append.2
          ⟨failed_connectSeg K env argc argv _ c1, failed_initSeg K env _ c2⟩,
          failed_startupSeg env _ c3⟩, failed_authSeg K env argc argv _ c4⟩,
          failed_sftpInitSeg env _ c5⟩, failed_openSeg K env argc argv _ c6⟩, ?_⟩
      unfold loopSeg
      refine List.forall_mem_append.2 ⟨by simp [Event.failed], ?_⟩
      intro x hx
      by_contra hf
      have hl2 := left_of_failed_readLoop _ _ _ x hx (by simpa using hf)
      rw [hl] at hl2
      exact absurd hl2 (by simp)

/-- C9: exit status of `main`.  A run returns -1 exactly when `connect`
returned non-zero, `libssh2_session_init` returned `NULL` or
`libssh2_session_startup` returned non-zero.  Every other run that terminates
returns 0 and ends by printing "all done"; in particular a run in which
authentication, `libssh2_sftp_init`, `libssh2_sftp_open` or
`libssh2_sftp_readnb` failed terminates with 0. -/
theorem exit_status (K : Headers) (env : Env) (argc : Int) (argv : Nat → String) :
    ((main K env argc argv).ret = some (-1)
        ↔ ∃ ev ∈ (main K env argc argv).trace, ev.abortsRun = true)
    ∧ (∀ v, (main K env argc argv).ret = some v → v ≠ -1 →
        v = 0 ∧ (main K env argc argv).trace.getLast? = some (Event.printf "all done\n"))
    ∧ (∀ ev ∈ (main K env argc argv).trace,
        ev.failed K.LIBSSH2SFTP_EAGAIN = true → ev.abortsRun = false →
        (main K env argc argv).ret = some 0
          ∧ (main K env argc argv).trace.getLast? = some (Event.printf "all done\n")) := by
  rcases ret_main K env argc argv with ⟨hr, ev, hev, hab⟩ | ⟨hr, hlast, hno⟩ | ⟨hr, hno, hnf⟩
  · refine ⟨⟨fun _ => ⟨ev, hev, hab⟩, fun _ => hr⟩, ?_, ?_⟩
    · intro v hv hne
      rw [hr] at hv
      exact absurd (Option.some.inj hv).symm hne
    · -- a run that returns -1 ends at its first failure, which is an aborting one
      intro x hx hf hna
      exfalso
      rcases main_cases K env argc argv with ⟨c, hm⟩ | ⟨c1, c2, hm⟩ | ⟨c1, c2, c3, hm⟩
        | ⟨c1, c2, c3, c4, hm⟩ | ⟨c1, c2, c3, c4, c5, hm⟩ | ⟨c1, c2, c3, c4, c5, c6, hm⟩
        | ⟨_, hl, hm⟩ | ⟨_, hl, hm⟩
      · rw [hm] at hx
        simp only [connectSeg, List.mem_append, List.mem_cons, List.mem_singleton,
          List.not_mem_nil, or_false] at hx
        rcases hx with (rfl | rfl) | rfl <;> simp_all [Event.failed, Event.abortsRun]
      · rw [hm] at hx
        simp only [connectSeg, initSeg, List.mem_append, List.mem_cons, List.mem_singleton,
          List.not_mem_nil, or_false] at hx
        rcases hx with (rfl | rfl) | rfl | rfl | rfl <;>
          simp_all [Event.failed, Event.abortsRun]
      · rw [hm] at hx
        simp only [connectSeg, initSeg, startupSeg, List.mem_append, List.mem_cons,
          List.mem_singleton, List.not_mem_nil, or_false] at hx
        rcases hx with (((rfl | rfl) | rfl | rfl | rfl) | rfl) | rfl <;>
          simp_all [Event.failed, Event.abortsRun]
      all_goals (rw [hm] at hr; simp at hr)
  · refine ⟨⟨fun h => ?_, fun ⟨ev, hev, hab⟩ => ?_⟩, ?_, ?_⟩
    · rw [hr] at h
      exact absurd (Option.some.inj h) (by decide)
    · rw [hno ev hev] at hab
      exact absurd hab (by simp)
    · intro v hv _
      rw [hr] at hv
      exact ⟨(Option.some.inj hv).symm, hlast⟩
    · intro _ _ _ _
      exact ⟨hr, hlast⟩
  · refine ⟨⟨fun h => ?_, fun ⟨ev, hev, hab⟩ => ?_⟩, ?_, ?_⟩
    · rw [hr] at h
      exact absurd h (by simp)
    · rw [hno ev hev] at hab
      exact absurd hab (by simp)
    · intro v hv _
      rw [hr] at hv
      exact absurd hv (by simp)
    · intro x hx hf _
      rw [hnf x hx] at hf
      exact absurd hf (by simp)

/-- Witness for C9: a read error ends the run with status 0 and "all done". -/
theorem exit_status_witness :
    Event.sftp_readnb 300 1024 (-1)
        ∈ (main sampleHeaders readErrorEnv 1 (argvOf ["sftp"])).trace
      ∧ (main sampleHeaders readErrorEnv 1 (argvOf ["sftp"])).ret = some 0
      ∧ (main sampleHeaders readErrorEnv 1 (argvOf ["sftp"])).trace.getLast?
          = some (Event.printf "all done\n") :=
  ⟨by decide,
    (exit_status sampleHeaders readErrorEnv 1 (argvOf ["sftp"])).2.2
      (Event.sftp_readnb 300 1024 (-1)) (by decide) (by decide) (by decide)⟩

theorem startup_not_mem_readLoop (e : Int) (h : Nat) (rs : List ReadResult)
    (s : Nat) (sock ret : Int) :
    Event.session_startup s sock ret ∉ (readLoop e h rs).1 := by
  intro hx
  rcases mem_readLoop hx with ⟨rc, h1⟩ | ⟨bs, h1⟩ | h1 <;> cases h1

/-- What a recorded call of `libssh2_session_startup` says about the run. -/
theorem startup_mem_main (K : Headers) (env : Env) (argc : Int) (argv : Nat → String) :
    (∀ session sock ret,
        Event.session_startup session sock ret ∈ (main K env argc argv).trace →
        session = env.session_init ∧ sock = env.socket ∧ ret = env.session_startup
          ∧ env.connect = 0 ∧ env.session_init ≠ 0)
    ∧ (∀ sftp path flags mode handle,
        Event.sftp_open sftp path flags mode handle ∈ (main K env argc argv).trace →
        Event.session_startup env.session_init env.socket 0 ∈ (main K env argc argv).trace) := by
  rcases main_cases K env argc argv with ⟨c, hm⟩ | ⟨c1, c2, hm⟩ | ⟨c1, c2, c3, hm⟩
    | ⟨c1, c2, c3, c4, hm⟩ | ⟨c1, c2, c3, c4, c5, hm⟩ | ⟨c1, c2, c3, c4, c5, c6, hm⟩
    | ⟨⟨c1, c2, c3, c4, c5, c6⟩, hl, hm⟩ | ⟨⟨c1, c2, c3, c4, c5, c6⟩, hl, hm⟩ <;>
  · rw [hm]
    simp only [connectSeg, initSeg, startupSeg, authSeg, sftpInitSeg, openSeg, loopSeg,
      closeSeg, shutdownSeg, shutdown, printFingerprint]
    refine ⟨?_, ?_⟩ <;>
      simp_all [startup_not_mem_readLoop, open_not_mem_readLoop]

/-- The teardown calls and the SFTP shutdown calls of a run. -/
theorem teardown_main (K : Headers) (env : Env) (argc : Int) (argv : Nat → String) :
    ((main K env argc argv).ret = some (-1)
      ∧ (env.connect = 0 → env.session_init ≠ 0 → env.session_startup ≠ 0)
      ∧ ¬ env.reachesReadLoop
      ∧ (main K env argc argv).trace.filter Event.isTeardown = []
      ∧ (main K env argc argv).trace.filter Event.isSftpShutdown = [])
    ∨ ((main K env argc argv).ret = some 0
      ∧ env.connect = 0 ∧ env.session_init ≠ 0 ∧ env.session_startup = 0
      ∧ (main K env argc argv).trace.filter Event.isTeardown
          = [ Event.session_disconnect env.session_init "Normal Shutdown, Thank you for playing",
              Event.session_free env.session_init, Event.close env.socket ]
      ∧ (main K env argc argv).trace.filter Event.isSftpShutdown
          = if env.reachesReadLoop then [Event.sftp_shutdown env.sftp_init] else [])
    ∨ (main K env argc argv).ret = none := by
  have hfp := filter_printFingerprint_nil Event.isTeardown (fun _ => rfl) env.hostkey_hash
  have hfs := filter_printFingerprint_nil Event.isSftpShutdown (fun _ => rfl) env.hostkey_hash
  have hlp := filter_readLoop_nil Event.isTeardown K.LIBSSH2SFTP_EAGAIN env.sftp_open env.reads
    (fun _ => rfl) (fun _ => rfl) rfl
  have hls := filter_readLoop_nil Event.isSftpShutdown K.LIBSSH2SFTP_EAGAIN env.sftp_open
    env.reads (fun _ => rfl) (fun _ => rfl) rfl
  rcases main_cases K env argc argv with ⟨c, hm⟩ | ⟨c1, c2, hm⟩ | ⟨c1, c2, c3, hm⟩
    | ⟨c1, c2, c3, c4, hm⟩ | ⟨c1, c2, c3, c4, c5, hm⟩ | ⟨c1, c2, c3, c4, c5, c6, hm⟩
    | ⟨hr, hl, hm⟩ | ⟨hr, hl, hm⟩
  · refine Or.inl ⟨by rw [hm], fun h => absurd h c, fun h => c h.1, ?_, ?_⟩ <;>
      (rw [hm]; simp [connectSeg, List.filter_cons, Event.isTeardown, Event.isSftpShutdown])
  · refine Or.inl ⟨by rw [hm], fun _ h => absurd c2 h, fun h => h.2.1 c2, ?_, ?_⟩ <;>
      (rw [hm]
       simp [connectSeg, initSeg, List.filter_cons, Event.isTeardown, Event.isSftpShutdown])
  · refine Or.inl ⟨by rw [hm], fun _ _ => c3, fun h => c3 h.2.2.1, ?_, ?_⟩ <;>
      (rw [hm]
       simp [connectSeg, initSeg, startupSeg, List.filter_cons, Event.isTeardown,
         Event.isSftpShutdown])
  · have hn : ¬ env.reachesReadLoop := fun h => c4 h.2.2.2.1
    refine Or.inr (Or.inl ⟨by rw [hm], c1, c2, c3, ?_, ?_⟩)
    · rw [hm]
      simp [connectSeg, initSeg, startupSeg, authSeg, shutdownSeg, shutdown, List.filter_cons,
        Event.isTeardown, hfp]
    · rw [hm, if_neg hn]
      simp [connectSeg, initSeg, startupSeg, authSeg, shutdownSeg, shutdown, List.filter_cons,
        Event.isSftpShutdown, hfs]
  · have hn : ¬ env.reachesReadLoop := fun h => h.2.2.2.2.1 c5
    refine Or.inr (Or.inl ⟨by rw [hm], c1, c2, c3, ?_, ?_⟩)
    · rw [hm]
      simp [connectSeg, initSeg, startupSeg, authSeg, sftpInitSeg, shutdownSeg, shutdown,
        List.filter_cons, Event.isTeardown, hfp]
    · rw [hm, if_neg hn]
      simp [connectSeg, initSeg, startupSeg, authSeg, sftpInitSeg, shutdownSeg, shutdown,
        List.filter_cons, Event.isSftpShutdown, hfs]
  · have hn : ¬ env.reachesReadLoop := fun h => h.2.2.2.2.2 c6
    refine Or.inr (Or.inl ⟨by rw [hm], c1, c2, c3, ?_, ?_⟩)
    · rw [hm]
      simp [connectSeg, initSeg, startupSeg, authSeg, sftpInitSeg, openSeg, shutdownSeg,
        shutdown, List.filter_cons, Event.isTeardown, hfp]
    · rw [hm, if_neg hn]
      simp [connectSeg, initSeg, startupSeg, authSeg, sftpInitSeg, openSeg, shutdownSeg,
        shutdown, List.filter_cons, Event.isSftpShutdown, hfs]
  · refine Or.inr (Or.inl ⟨by rw [hm], hr.1, hr.2.1, hr.2.2.1, ?_, ?_⟩)
    · rw [hm]
      simp [connectSeg, initSeg, startupSeg, authSeg, sftpInitSeg, openSeg, loopSeg, closeSeg,
        shutdownSeg, shutdown, List.filter_cons, Event.isTeardown, hfp, hlp]
    · rw [hm, if_pos hr]
      simp [connectSeg, initSeg, startupSeg, authSeg, sftpInitSeg, openSeg, loopSeg, closeSeg,
        shutdownSeg, shutdown, List.filter_cons, Event.isSftpShutdown, hfs, hls]
  · exact Or.inr (Or.inr (by rw [hm]))

theorem sftp_init_not_mem_readLoop (e : Int) (h : Nat) (rs : List ReadResult)
    (s r : Nat) : Event.sftp_init s r ∉ (readLoop e h rs).1 := by
  intro hx
  rcases mem_readLoop hx with ⟨rc, h1⟩ | ⟨bs, h1⟩ | h1 <;> cases h1

/-- Arguments of the recorded SFTP calls, and presence of the handshake call. -/
theorem sftp_args_main (K : Headers) (env : Env) (argc : Int) (argv : Nat → String) :
    (∀ session sftp, Event.sftp_init session sftp ∈ (main K env argc argv).trace →
        session = env.session_init)
    ∧ (∀ sftp path flags mode handle,
        Event.sftp_open sftp path flags mode handle ∈ (main K env argc argv).trace →
        sftp = env.sftp_init)
    ∧ (env.connect = 0 → env.session_init ≠ 0 →
        Event.session_startup env.session_init env.socket env.session_startup
          ∈ (main K env argc argv).trace) := by
  rcases main_cases K env argc argv with ⟨c, hm⟩ | ⟨c1, c2, hm⟩ | ⟨c1, c2, c3, hm⟩
    | ⟨c1, c2, c3, c4, hm⟩ | ⟨c1, c2, c3, c4, c5, hm⟩ | ⟨c1, c2, c3, c4, c5, c6, hm⟩
    | ⟨⟨c1, c2, c3, c4, c5, c6⟩, hl, hm⟩ | ⟨⟨c1, c2, c3, c4, c5, c6⟩, hl, hm⟩ <;>
  · rw [hm]
    simp only [connectSeg, initSeg, startupSeg, authSeg, sftpInitSeg, openSeg, loopSeg,
      closeSeg, shutdownSeg, shutdown, printFingerprint]
    refine ⟨?_, ?_, ?_⟩ <;>
      simp_all [sftp_init_not_mem_readLoop, open_not_mem_readLoop]

/-- C10: teardown pairing.  In a terminating run, `libssh2_session_disconnect`,
`libssh2_session_free` and the close of the socket are each called exactly
once, in that order, when `libssh2_session_startup` returned 0, and none of them
is called otherwise, which is exactly on the runs that return -1.
`libssh2_sftp_shutdown` is called exactly once when `libssh2_sftp_open` returned
a non-NULL handle and never otherwise; so a run in which `libssh2_sftp_init`
succeeded and `libssh2_sftp_open` failed tears the session down without any
`libssh2_sftp_shutdown`. -/
theorem teardown_pairing (K : Headers) (env : Env) (argc : Int) (argv : Nat → String)
    (hterm : (main K env argc argv).ret ≠ none) :
    (∀ session sock,
        Event.session_startup session sock 0 ∈ (main K env argc argv).trace →
        (main K env argc argv).trace.filter Event.isTeardown
          = [ Event.session_disconnect session "Normal Shutdown, Thank you for playing",
              Event.session_free session, Event.close sock ])
    ∧ ((∀ session sock,
          Event.session_startup session sock 0 ∉ (main K env argc argv).trace) →
        (main K env argc argv).trace.filter Event.isTeardown = []
          ∧ (main K env argc argv).ret = some (-1))
    ∧ ((main K env argc argv).ret = some (-1) →
        (main K env argc argv).trace.filter Event.isTeardown = [])
    ∧ (∀ sftp path flags mode handle,
        Event.sftp_open sftp path flags mode handle ∈ (main K env argc argv).trace →
        handle ≠ 0 →
        (main K env argc argv).trace.filter Event.isSftpShutdown = [Event.sftp_shutdown sftp])
    ∧ ((∀ sftp path flags mode handle,
          Event.sftp_open sftp path flags mode handle ∈ (main K env argc argv).trace →
          handle = 0) →
        (main K env argc argv).trace.filter Event.isSftpShutdown = [])
    ∧ (∀ session sftp path flags mode,
        Event.sftp_init session sftp ∈ (main K env argc argv).trace → sftp ≠ 0 →
        Event.sftp_open sftp path flags mode 0 ∈ (main K env argc argv).trace →
        (main K env argc argv).trace.filter Event.isSftpShutdown = []
          ∧ (main K env argc argv).trace.filter Event.isTeardown
              = [ Event.session_disconnect session "Normal Shutdown, Thank you for playing",
                  Event.session_free session, Event.close env.socket ]) := by
  have hstart := startup_mem_main K env argc argv
  have hopen := open_mem_main K env argc argv
  have hargs := sftp_args_main K env argc argv
  rcases teardown_main K env argc argv with ⟨hr, hst, hn, ht, hs⟩ | ⟨hr, c1, c2, c3, ht, hs⟩
    | hnone
  · -- the run returned -1
    have hno : ∀ session sock,
        Event.session_startup session sock 0 ∉ (main K env argc argv).trace := by
      intro session sock hmem
      obtain ⟨_, _, h0, hc, hi⟩ := hstart.1 session sock 0 hmem
      exact hst hc hi h0.symm
    refine ⟨?_, ?_, ?_, ?_, ?_, ?_⟩
    · intro session sock hmem
      exact absurd hmem (hno session sock)
    · intro _
      exact ⟨ht, hr⟩
    · intro _
      exact ht
    · intro sftp path flags mode handle hmem hne
      exact absurd ((hopen.1 sftp path flags mode handle hmem).2 hne) hn
    · intro _
      exact hs
    · intro session sftp path flags mode _ _ hmem
      exact absurd (hstart.2 sftp path flags mode 0 hmem) (hno _ _)
  · -- the run returned 0
    refine ⟨?_, ?_, ?_, ?_, ?_, ?_⟩
    · intro session sock hmem
      obtain ⟨h1, h2, _⟩ := hstart.1 session sock 0 hmem
      rw [h1, h2]
      exact ht
    · intro hno
      have := hargs.2.2 c1 c2
      rw [c3] at this
      exact absurd this (hno _ _)
    · intro h
      rw [hr] at h
      exact absurd (Option.some.inj h) (by decide)
    · intro sftp path flags mode handle hmem hne
      have hreach := (hopen.1 sftp path flags mode handle hmem).2 hne
      rw [hs, if_pos hreach, hargs.2.1 sftp path flags mode handle hmem]
    · intro hall
      have hn : ¬ env.reachesReadLoop := fun h => h.2.2.2.2.2 (hall _ _ _ _ _ (hopen.2 h))
      rw [hs, if_neg hn]
    · intro session sftp path flags mode hinit _ hmem
      have h0 := (hopen.1 sftp path flags mode 0 hmem).1
      have hn : ¬ env.reachesReadLoop := fun h => h.2.2.2.2.2 h0.symm
      rw [hs, if_neg hn, ht, hargs.1 session sftp hinit]
      exact ⟨rfl, rfl⟩
  · exact absurd hnone hterm

/-- Witness for C10: the run in which the remote file cannot be opened still
disconnects, frees the session and closes the socket, without any
`libssh2_sftp_shutdown`. -/
theorem teardown_pairing_witness :
    (main sampleHeaders openFailEnv 1 (argvOf ["sftp"])).ret ≠ none
      ∧ (main sampleHeaders openFailEnv 1 (argvOf ["sftp"])).trace.filter Event.isSftpShutdown
          = []
      ∧ (main sampleHeaders openFailEnv 1 (argvOf ["sftp"])).trace.filter Event.isTeardown
          = [ Event.session_disconnect 100 "Normal Shutdown, Thank you for playing",
              Event.session_free 100, Event.close 3 ] :=
  ⟨by decide,
    (teardown_pairing sampleHeaders openFailEnv 1 (argvOf ["sftp"]) (by decide)).2.2.2.2.2
      100 200 "/tmp/TEST" 1 0 (by decide) (by decide) (by decide)⟩

/-! Fragmentation independence of the codec -/

theorem drain_eq {R : Type} (parse : List Nat → Option R) (buf : List Nat) :
    drain parse buf =
      match decode parse buf with
      | Decoded.complete r n => (r :: (drain parse (buf.drop n)).1, (drain parse (buf.drop n)).2)
      | Decoded.incomplete => ([], { pending := buf, failed := false })
      | Decoded.malformed => ([], { pending := buf, failed := true }) := by
  rw [drain]
  split <;> simp_all

theorem decode_complete_bound {R : Type} (parse : List Nat → Option R) (a : List Nat)
    (r : R) (n : Nat) (h : decode parse a = Decoded.complete r n) :
    0 < n ∧ n ≤ a.length := by
  rcases a with _ | ⟨b0, _ | ⟨b1, _ | ⟨b2, _ | ⟨b3, rest⟩⟩⟩⟩
  · simp [decode] at h
  · simp [decode] at h
  · simp [decode] at h
  · simp [decode] at h
  · simp only [decode] at h
    split at h
    · cases h
    · split at h
      · cases h
        simp only [List.length_cons]
        omega
      · cases h

theorem decode_append_complete {R : Type} (parse : List Nat → Option R) (a b : List Nat)
    (r : R) (n : Nat) (h : decode parse a = Decoded.complete r n) :
    decode parse (a ++ b) = Decoded.complete r n := by
  rcases a with _ | ⟨b0, _ | ⟨b1, _ | ⟨b2, _ | ⟨b3, rest⟩⟩⟩⟩
  · simp [decode] at h
  · simp [decode] at h
  · simp [decode] at h
  · simp [decode] at h
  · simp only [decode, List.cons_append] at h ⊢
    split at h
    · cases h
    · rename_i hlen
      have hlen2 : ¬ (rest ++ b).length < be32 b0 b1 b2 b3 := by
        simp only [List.length_append]; omega
      rw [if_neg hlen2, List.take_append_of_le_length (by omega)]
      exact h

theorem decode_append_malformed {R : Type} (parse : List Nat → Option R) (a b : List Nat)
    (h : decode parse a = Decoded.malformed) :
    decode parse (a ++ b) = Decoded.malformed := by
  rcases a with _ | ⟨b0, _ | ⟨b1, _ | ⟨b2, _ | ⟨b3, rest⟩⟩⟩⟩
  · simp [decode] at h
  · simp [decode] at h
  · simp [decode] at h
  · simp [decode] at h
  · simp only [decode, List.cons_append] at h ⊢
    split at h
    · cases h
    · rename_i hlen
      have hlen2 : ¬ (rest ++ b).length < be32 b0 b1 b2 b3 := by
        simp only [List.length_append]; omega
      rw [if_neg hlen2, List.take_append_of_le_length (by omega)]
      exact h

/-- Draining a buffer to which more bytes are appended: the frames of the
first part come out first, and decoding goes on from what the first part left
over, unless the first part was already malformed. -/
theorem drain_append {R : Type} (parse : List Nat → Option R) (b : List Nat) :
    ∀ (m : Nat) (a : List Nat), a.length ≤ m →
      (drain parse (a ++ b)).1
        = (drain parse a).1 ++
            (if (drain parse a).2.failed then []
             else (drain parse ((drain parse a).2.pending ++ b)).1) := by
  intro m
  induction m with
  | zero =>
    intro a ha
    have : a = [] := List.eq_nil_of_length_eq_zero (by omega)
    subst this
    rw [drain_eq parse []]
    simp [decode]
  | succ m ih =>
    intro a ha
    rw [drain_eq parse a]
    cases hd : decode parse a with
    | complete r n =>
      obtain ⟨hn0, hn⟩ := decode_complete_bound parse a r n hd
      rw [drain_eq parse (a ++ b), decode_append_complete parse a b r n hd]
      simp only [List.cons_append, List.cons.injEq, true_and]
      rw [List.drop_append_of_le_length hn]
      exact ih (a.drop n) (by rw [List.length_drop]; omega)
    | incomplete => simp
    | malformed =>
      rw [drain_eq parse (a ++ b), decode_append_malformed parse a b hd]
      simp

/-- What a drain leaves buffered holds no complete frame. -/
theorem drain_pending {R : Type} (parse : List Nat → Option R) :
    ∀ (m : Nat) (a : List Nat), a.length ≤ m → (drain parse a).2.failed = false →
      decode parse (drain parse a).2.pending = Decoded.incomplete := by
  intro m
  induction m with
  | zero =>
    intro a ha _
    have : a = [] := List.eq_nil_of_length_eq_zero (by omega)
    subst this
    rw [drain_eq parse []]
    simp [decode]
  | succ m ih =>
    intro a ha
    rw [drain_eq parse a]
    cases hd : decode parse a with
    | complete r n =>
      obtain ⟨hn0, hn⟩ := decode_complete_bound parse a r n hd
      exact ih (a.drop n) (by rw [List.length_drop]; omega)
    | incomplete => intro _; exact hd
    | malformed => simp

theorem pumpAll_failed {R : Type} (parse : List Nat → Option R) (c : Codec)
    (hc : c.failed = true) (chunks : List (List Nat)) : Codec.pumpAll parse c chunks = [] := by
  induction chunks with
  | nil => rfl
  | cons d ds ih => simp [Codec.pumpAll, Codec.pump, hc, ih]

theorem pumpAll_eq_pump {R : Type} (parse : List Nat → Option R) (chunks : List (List Nat)) :
    ∀ c : Codec, (c.failed = false → decode parse c.pending = Decoded.incomplete) →
      Codec.pumpAll parse c chunks = (c.pump parse chunks.flatten).1 := by
  induction chunks with
  | nil =>
    intro c hc
    cases hf : c.failed with
    | true => simp [Codec.pumpAll, Codec.pump, hf]
    | false =>
      simp only [Codec.pumpAll, Codec.pump, hf, List.flatten_nil, List.append_nil]
      rw [drain_eq, hc hf]
      simp
  | cons d ds ih =>
    intro c hc
    cases hf : c.failed with
    | true =>
      rw [pumpAll_failed parse c hf]
      simp [Codec.pump, hf]
    | false =>
      have hinv : (drain parse (c.pending ++ d)).2.failed = false →
          decode parse (drain parse (c.pending ++ d)).2.pending = Decoded.incomplete :=
        drain_pending parse _ _ (le_refl _)
      have hstep := ih (drain parse (c.pending ++ d)).2 hinv
      simp only [Codec.pumpAll, Codec.pump, hf, List.flatten_cons, Bool.false_eq_true,
        if_false] at hstep ⊢
      rw [hstep, ← List.append_assoc, drain_append parse ds.flatten _ _ (le_refl _)]
      cases hf2 : (drain parse (c.pending ++ d)).2.failed <;> simp

/-- C7: fragmentation independence of the codec.  However the inbound bytes
are split over successive `pump` calls, empty deliveries included, the frames
the codec yields over those calls, in order, are exactly the frames it yields
when all the bytes are delivered in a single call. -/
theorem fragmentation_independence {R : Type} (parse : List Nat → Option R)
    (chunks : List (List Nat)) :
    Codec.pumpAll parse { pending := [], failed := false } chunks
      = (Codec.pump parse { pending := [], failed := false } chunks.flatten).1 :=
  pumpAll_eq_pump parse chunks _ (fun _ => by simp [decode])

/-- Witness for C7: two packets cut into five deliveries, one of them empty,
come out as the same two frames. -/
theorem fragmentation_independence_witness :
    Codec.pumpAll sampleParse { pending := [], failed := false }
        [[0, 0], [0, 2, 101], [], [7, 0, 0, 0, 1, 102, 0, 0], [0, 3, 9]]
      = [[101, 7], [102]] :=
  (fragmentation_independence sampleParse
      [[0, 0], [0, 2, 101], [], [7, 0, 0, 0, 1, 102, 0, 0], [0, 3, 9]]).trans
    (by simp [Codec.pump, drain_eq, decode, be32, sampleParse])

end SftpNonblock
